import Mathlib

/-!
Verification of `add_to_xcode.py`, a one-shot text patcher that registers two
new Swift source files (`AudioProcessorTestView.swift` and
`AudioProcessorTestViewModel.swift`) in an Xcode `project.pbxproj` manifest.

The script reads the manifest, generates five random identifiers, performs
five independently guarded regex-anchored text edits, prints four lines and
writes the result back.  We embed the manifest text as `List Char` and each
step of the script as an executable Lean function; the file-system read and
write are dropped (the pure transformation `patchContent` is what is
verified), and the five `uuid.uuid4().hex` draws become explicit inputs.
-/

/-- Manifest text is an opaque character list (Python `str`). -/
abbrev L : Type := List Char

/-- The character class `[A-F0-9]` used by the group/phase regexes. -/
def isHexUp (c : Char) : Bool :=
  ('A' ≤ c && c ≤ 'F') || ('0' ≤ c && c ≤ '9')

/-- The whitespace characters stripped by Python `str.rstrip()`. -/
def isPyWS (c : Char) : Bool :=
  c == ' ' || c == '\t' || c == '\n' || c == '\r' || c == '\x0b' || c == '\x0c'

/-- Python `str.rstrip()`: remove trailing whitespace. -/
def rstrip (s : L) : L := (s.reverse.dropWhile isPyWS).reverse

/-- The sixteen digits that can occur in `uuid.uuid4().hex`. -/
def lowHexChars : L := "0123456789abcdef".data

/-- A character that can occur in `uuid.uuid4().hex`. -/
def isLowerHex (c : Char) : Bool := lowHexChars.contains c

/-- Python `str.upper` on one character of a hex string (ASCII case map;
`uuid4().hex` only contains `0-9a-f`, for which this is exact). -/
def pyUpper (c : Char) : Char :=
  if 'a' ≤ c && c ≤ 'z' then Char.ofNat (c.toNat - 32) else c

/-- `generate_xcode_uuid`: `uuid.uuid4().hex.upper()[:24]`, with the 32
hex digits of the random UUID passed in as `h`. -/
def generate_xcode_uuid (h : L) : L := (h.map pyUpper).take 24

/-- Shape of `uuid.uuid4().hex`: 32 lowercase hex digits whose 13th digit is
the version nibble `4` and whose 17th digit carries the RFC 4122 variant. -/
def validUuid4Hex (h : L) : Prop :=
  h.length = 32 ∧ h.all isLowerHex = true ∧ h[12]? = some '4' ∧
    (h[16]? = some '8' ∨ h[16]? = some '9' ∨ h[16]? = some 'a' ∨ h[16]? = some 'b')

/-- Fuel-indexed body of Python `str.replace(old, new)`: scan left to right,
replacing every non-overlapping occurrence of `old`.  The fuel only serves
structural termination; `s.length` is always enough fuel because each step
consumes at least one character of `s`. -/
def replaceAllF (old new : L) : Nat → L → L
  | _, [] => []
  | 0, c :: rest => c :: rest
  | fuel + 1, c :: rest =>
    if old ≠ [] ∧ old.isPrefixOf (c :: rest) = true then
      new ++ replaceAllF old new fuel ((c :: rest).drop old.length)
    else
      c :: replaceAllF old new fuel rest

/-- Python `str.replace(old, new)` (for non-empty `old`). -/
def replaceAll (old new s : L) : L := replaceAllF old new s.length s

/-- Index of the leftmost occurrence of the literal `pat` in the scanned
string, as found by `re.search` on an escaped-literal pattern. -/
def substrPosAux (pat : L) : L → Option Nat
  | [] => if pat.isEmpty then some 0 else none
  | c :: rest =>
    if pat.isPrefixOf (c :: rest) = true then some 0
    else (substrPosAux pat rest).map (fun n => n + 1)

/-- `re.search(re.escape-style literal, s)`: position of the leftmost hit. -/
def substrPos (pat s : L) : Option Nat := substrPosAux pat s

/-- `content[:m.end()] + block + content[m.end():]` for a literal-anchor
match, or `content` unchanged when the anchor is absent. -/
def stepInsert (anchor block s : L) : L :=
  match substrPos anchor s with
  | some p => s.take (p + anchor.length) ++ block ++ s.drop (p + anchor.length)
  | none => s

/-- The literal `);` closing a parenthesized listing in the regexes. -/
def closeParen : L := ");".data

/-- Backtracking helper: try `f k, f (k-1), ..., f 1` and return the first
hit.  This is the order in which a greedy `[^X]+` releases characters. -/
def lastHit (f : Nat → Option L) : Nat → Option L
  | 0 => none
  | k + 1 =>
    match f (k + 1) with
    | some v => some v
    | none => lastHit f k

/-- One backtracking attempt of the regex tail `[^\x7d]+LC([^)]+)\);` (with
`LC` the literal `children = (` or `files = (`) against `t`, where the greedy
`[^\x7d]+` consumes exactly `k` characters: the literal `LC` must follow, and
the greedy `[^)]+` is then forced to the maximal run of non-`)` characters,
which must be non-empty and followed by `);`.  Returns the text captured by
`([^)]+)`. -/
def innerTry (lc t : L) (k : Nat) : Option L :=
  if lc.isPrefixOf (t.drop k) = true then
    if (((t.drop k).drop lc.length).takeWhile (fun c => !(c == ')'))).isEmpty = false ∧
        closeParen.isPrefixOf (((t.drop k).drop lc.length).drop
          ((((t.drop k).drop lc.length).takeWhile (fun c => !(c == ')'))).length)) = true then
      some (((t.drop k).drop lc.length).takeWhile (fun c => !(c == ')')))
    else none
  else none

/-- The backtracking tail match: try the largest viable `[^\x7d]+` length
first, as `re`'s greedy matching does. -/
def innerAt (lc t : L) : Option L :=
  lastHit (innerTry lc t) ((t.takeWhile (fun c => !(c == '\x7d'))).length)

/-- One attempt, at the head of `t`, of the section regex
`([A-F0-9]\x7b24\x7d)LIT[^\x7d]+LC([^)]+)\);` where `LIT` is the literal
` /* Features */ = \x7b` (or ` /* Sources */ = \x7b`).  Returns the
24-digit group when the whole pattern matches here. -/
def matchSection (lit lc t : L) : Option L :=
  let u := t.take 24
  if u.length = 24 ∧ u.all isHexUp = true ∧ lit.isPrefixOf (t.drop 24) = true ∧
      (innerAt lc ((t.drop 24).drop lit.length)).isSome = true then
    some u
  else none

/-- `re.search` for the section regex: scan start positions left to right and
return group 1 (the 24-digit identifier) of the leftmost full match.  (Written
as a plain `List.rec` fold so that scanning long manifests reduces without
deep recursion.) -/
def searchGroup (lit lc s : L) : Option L :=
  List.rec none
    (fun c rest ih =>
      match matchSection lit lc (c :: rest) with
      | some g => some g
      | none => ih)
    s

/-- One attempt, at the head of `s`, of the second, identifier-anchored regex
`(UUID LIT [^\x7d]+LC)([^)]+)(\);)`: the literal `UUID ++ LIT` must match
here, then the backtracking tail runs; returns the text captured by
`([^)]+)`. -/
def innerHead (uuid lit lc s : L) : Option L :=
  if (uuid ++ lit).isPrefixOf s = true then
    innerAt lc (s.drop (uuid ++ lit).length)
  else none

/-- Scan of the identifier-anchored regex: leftmost start position wins.
(A plain `List.rec` fold, like `searchGroup`.) -/
def searchInner (uuid lit lc s : L) : Option L :=
  List.rec none
    (fun c rest ih =>
      match innerHead uuid lit lc (c :: rest) with
      | some r => some r
      | none => ih)
    s

/-- Anchor of step 1: `/* Begin PBXBuildFile section */`. -/
def bfA : L := "/* Begin PBXBuildFile section */".data

/-- Anchor of step 2: `/* Begin PBXFileReference section */`. -/
def frA : L := "/* Begin PBXFileReference section */".data

/-- Anchor of the group-record insertion: `/* Begin PBXGroup section */`. -/
def grpA : L := "/* Begin PBXGroup section */".data

/-- Literal part of the Features regex after the captured identifier. -/
def litFeat : L := " /* Features */ = \x7b".data

/-- Literal `children = (` of the Features regex. -/
def litChildren : L := "children = (".data

/-- Literal part of the Sources regex after the captured identifier. -/
def litSrc : L := " /* Sources */ = \x7b".data

/-- Literal `files = (` of the Sources regex. -/
def litFiles : L := "files = (".data

/-- `re.search` for the Features group: returns the group identifier. -/
def featuresSearch (s : L) : Option L := searchGroup litFeat litChildren s

/-- `re.search` for the children listing of the given Features group
identifier: returns the text of the `([^)]+)` children group. -/
def childrenSearch (uuid s : L) : Option L := searchInner uuid litFeat litChildren s

/-- `re.search` for the Sources build phase: returns the phase identifier. -/
def sourcesSearch (s : L) : Option L := searchGroup litSrc litFiles s

/-- `re.search` for the files listing of the given Sources phase identifier:
returns the text of the `([^)]+)` files group. -/
def filesSearch (uuid s : L) : Option L := searchInner uuid litSrc litFiles s

/-- The `build_entries` block: two `PBXBuildFile` records, each binding a
build-file identifier to its file-reference identifier. -/
def buildEntries (u_vb u_vr u_vmb u_vmr : L) : L :=
  "\n\t\t".data ++ u_vb ++
    " /* AudioProcessorTestView.swift in Sources */ = \x7bisa = PBXBuildFile; fileRef = ".data ++
    u_vr ++ " /* AudioProcessorTestView.swift */; \x7d;\n\t\t".data ++ u_vmb ++
    " /* AudioProcessorTestViewModel.swift in Sources */ = \x7bisa = PBXBuildFile; fileRef = ".data ++
    u_vmr ++ " /* AudioProcessorTestViewModel.swift */; \x7d;".data

/-- The `file_entries` block: two `PBXFileReference` records. -/
def fileEntries (u_vr u_vmr : L) : L :=
  "\n\t\t".data ++ u_vr ++
    " /* AudioProcessorTestView.swift */ = \x7bisa = PBXFileReference; lastKnownFileType = sourcecode.swift; path = AudioProcessorTestView.swift; sourceTree = \"<group>\"; \x7d;\n\t\t".data ++
    u_vmr ++
    " /* AudioProcessorTestViewModel.swift */ = \x7bisa = PBXFileReference; lastKnownFileType = sourcecode.swift; path = AudioProcessorTestViewModel.swift; sourceTree = \"<group>\"; \x7d;".data

/-- The single member appended to the Features children listing. -/
def childTail (u_g : L) : L :=
  "\n\t\t\t\t".data ++ u_g ++ " /* AudioProcessorTest */,".data

/-- The `group_entry` block: one new `PBXGroup` record whose children are the
two new file-reference identifiers. -/
def groupEntry (u_g u_vr u_vmr : L) : L :=
  "\n\t\t".data ++ u_g ++
    " /* AudioProcessorTest */ = \x7b\n\t\t\tisa = PBXGroup;\n\t\t\tchildren = (\n\t\t\t\t".data ++
    u_vr ++ " /* AudioProcessorTestView.swift */,\n\t\t\t\t".data ++ u_vmr ++
    " /* AudioProcessorTestViewModel.swift */,\n\t\t\t);\n\t\t\tpath = AudioProcessorTest;\n\t\t\tsourceTree = \"<group>\";\n\t\t\x7d;".data

/-- The two members appended to the Sources files listing. -/
def filesTail (u_vb u_vmb : L) : L :=
  "\n\t\t\t\t".data ++ u_vb ++
    " /* AudioProcessorTestView.swift in Sources */,\n\t\t\t\t".data ++ u_vmb ++
    " /* AudioProcessorTestViewModel.swift in Sources */,".data

/-- Step 1: insert the two `PBXBuildFile` entries after the build-file
section-open anchor, if present. -/
def step_build (u_vb u_vr u_vmb u_vmr s : L) : L :=
  stepInsert bfA (buildEntries u_vb u_vr u_vmb u_vmr) s

/-- Step 2: insert the two `PBXFileReference` entries after the
file-reference section-open anchor, if present. -/
def step_fileref (u_vr u_vmr s : L) : L :=
  stepInsert frA (fileEntries u_vr u_vmr) s

/-- Step 3a: append the new group identifier to the Features children by a
whole-string `str.replace` of the captured listing text, if both searches
hit. -/
def step_features (u_g s : L) : L :=
  match featuresSearch s with
  | some fgu =>
    match childrenSearch fgu s with
    | some inner => replaceAll inner (rstrip inner ++ childTail u_g) s
    | none => s
  | none => s

/-- Step 3b: insert the new `PBXGroup` record after the group section-open
anchor, if present. -/
def step_group (u_g u_vr u_vmr s : L) : L :=
  stepInsert grpA (groupEntry u_g u_vr u_vmr) s

/-- Step 4: append the two build-file identifiers to the Sources files
listing by a whole-string `str.replace`, if both searches hit. -/
def step_sources (u_vb u_vmb s : L) : L :=
  match sourcesSearch s with
  | some su =>
    match filesSearch su s with
    | some inner => replaceAll inner (rstrip inner ++ filesTail u_vb u_vmb) s
    | none => s
  | none => s

/-- The whole in-memory transformation of `add_files_to_pbxproj`: the five
guarded edits in program order. -/
def patchContent (u_vr u_vmr u_vb u_vmb u_g s : L) : L :=
  step_sources u_vb u_vmb
    (step_group u_g u_vr u_vmr
      (step_features u_g
        (step_fileref u_vr u_vmr
          (step_build u_vb u_vr u_vmb u_vmr s))))

/-- The four lines printed by one run, in order. -/
def outputLines (u_vr u_vmr u_g : L) : List L :=
  ["View File Ref UUID: ".data ++ u_vr,
   "ViewModel File Ref UUID: ".data ++ u_vmr,
   "Group UUID: ".data ++ u_g,
   "✅ Files added to Xcode project successfully!".data]

/-- Observable result of one run: the content written back and the lines
printed to standard output. -/
structure RunResult where
  content : L
  output : List L
deriving DecidableEq

/-- `add_files_to_pbxproj`, with the file content passed in and out instead
of read from and written to `pbxproj_path`, and with the five `uuid4` hex
draws `d1 .. d5` made explicit (in the order the script draws them:
view file ref, viewmodel file ref, view build file, viewmodel build file,
group). -/
def add_files_to_pbxproj (content d1 d2 d3 d4 d5 : L) : RunResult :=
  let view_file_ref_uuid := generate_xcode_uuid d1
  let viewmodel_file_ref_uuid := generate_xcode_uuid d2
  let view_build_file_uuid := generate_xcode_uuid d3
  let viewmodel_build_file_uuid := generate_xcode_uuid d4
  let group_uuid := generate_xcode_uuid d5
  { content := patchContent view_file_ref_uuid viewmodel_file_ref_uuid
      view_build_file_uuid viewmodel_build_file_uuid group_uuid content,
    output := outputLines view_file_ref_uuid viewmodel_file_ref_uuid group_uuid }

/-- Parenthesis/brace balance of a manifest, as counted bracket characters. -/
def pbal (s : L) : Prop :=
  s.count '(' = s.count ')' ∧ s.count '\x7b' = s.count '\x7d'

/-- Executable check that `pat` matches at none of the first `X.length`
positions of `s` (a linear scan used to discharge leftmostness side
conditions on concrete data; `X` only serves as a unary position counter,
so no list length is ever evaluated). -/
def noOccPre (pat X s : L) : Bool :=
  List.rec (fun _ => true)
    (fun _ xr ih t =>
      match t with
      | [] => true
      | c :: sr => (!(pat.isPrefixOf (c :: sr))) && ih sr)
    X s

/-! ### Concrete data used to instantiate the theorems below -/

/-- Run-1 identifier: view file reference. -/
def cUvr : L := "AAAAAAAAAAAAAAAAAAAAAAA1".data

/-- Run-1 identifier: viewmodel file reference. -/
def cUvmr : L := "AAAAAAAAAAAAAAAAAAAAAAA2".data

/-- Run-1 identifier: view build file. -/
def cUvb : L := "AAAAAAAAAAAAAAAAAAAAAAA3".data

/-- Run-1 identifier: viewmodel build file. -/
def cUvmb : L := "AAAAAAAAAAAAAAAAAAAAAAA4".data

/-- Run-1 identifier: group. -/
def cUg : L := "AAAAAAAAAAAAAAAAAAAAAAA5".data

/-- Run-2 identifier: view file reference. -/
def cVvr : L := "BBBBBBBBBBBBBBBBBBBBBBB1".data

/-- Run-2 identifier: viewmodel file reference. -/
def cVvmr : L := "BBBBBBBBBBBBBBBBBBBBBBB2".data

/-- Run-2 identifier: view build file. -/
def cVvb : L := "BBBBBBBBBBBBBBBBBBBBBBB3".data

/-- Run-2 identifier: viewmodel build file. -/
def cVvmb : L := "BBBBBBBBBBBBBBBBBBBBBBB4".data

/-- Run-2 identifier: group. -/
def cVg : L := "BBBBBBBBBBBBBBBBBBBBBBB5".data

/-- Sample manifest piece before the build-file section anchor. -/
def cP1 : L := "// head\n".data

/-- Sample manifest piece between the build-file and file-reference anchors. -/
def cP2 : L := "\n/* End PBXBuildFile section */\n".data

/-- Sample manifest piece between the file-reference and group anchors. -/
def cP3 : L := "\n/* End PBXFileReference section */\n".data

/-- Sample manifest piece between the group anchor and the Features group. -/
def cP4 : L := "\n".data

/-- Sample Features group head, up to and including `children = (`. -/
def cFH : L := "FEA0000000000000000000AA /* Features */ = \x7bqchildren = (".data

/-- Sample Features children listing text. -/
def cIn1 : L := "zq1,".data

/-- Sample piece between the Features group and the Sources phase. -/
def cP5 : L := "\n\x7d;\n/* End PBXGroup section */\n".data

/-- Sample Sources phase head, up to and including `files = (`. -/
def cSH : L := "BEEF00000000000000000CCC /* Sources */ = \x7bqfiles = (".data

/-- Sample Sources files listing text. -/
def cIn2 : L := "wq2,".data

/-- Sample trailing manifest piece. -/
def cP6 : L := "\n\x7d;\n/* End PBXSourcesBuildPhase section */\n".data

/-- Identifier of the sample Features group. -/
def cFgu : L := "FEA0000000000000000000AA".data

/-- Identifier of the sample Sources phase. -/
def cSu : L := "BEEF00000000000000000CCC".data

/-- The sample manifest containing all anchors. -/
def cS0 : L :=
  cP1 ++ bfA ++ cP2 ++ frA ++ cP3 ++ grpA ++ cP4 ++ cFH ++ cIn1 ++ closeParen ++
    cP5 ++ cSH ++ cIn2 ++ closeParen ++ cP6

/-- Replacement for `cP4` in the Features-free sample manifest: a group named
`Other`, so that no Features anchor exists. -/
def cP4f : L := "\nFEA0000000000000000000AA /* Other */ = \x7bqchildren = (zq1,);\n\x7d;\n".data

/-- Sample manifest with build-file, file-reference, group and Sources
anchors but no Features group. -/
def cS0f : L :=
  cP1 ++ bfA ++ cP2 ++ frA ++ cP3 ++ grpA ++ cP4f ++ cSH ++ cIn2 ++ closeParen ++ cP6

/-- Sample manifest containing none of the anchors. -/
def cNoAnchor : L := "hello world".data

/-- Sample manifest whose Features group has an empty children listing. -/
def cS9a : L := "AB000000000000000000000A /* Features */ = \x7bqchildren = ();\x7d;".data

/-- Sample manifest whose Sources phase has an empty files listing. -/
def cS9b : L := "AB000000000000000000000B /* Sources */ = \x7bqfiles = ();\x7d;".data

/-- Middle piece of the duplicated-listing sample manifests: closes the first
listing and opens a second group with a textually identical listing. -/
def cE10 : L := ");\n\x7d;\nOTHER = \x7bqchildren = (".data

/-- Middle piece for the Sources variant of the duplicated-listing sample. -/
def cE10b : L := ");\n\x7d;\nOTHER = \x7bqfiles = (".data

/-- Trailing piece of the duplicated-listing sample manifests. -/
def cD10 : L := ");\n\x7d;\n".data

/-- Sample manifest in which the Features children text occurs twice. -/
def cS10 : L := cFH ++ cIn1 ++ cE10 ++ cIn1 ++ cD10

/-- Sample manifest in which the Sources files text occurs twice. -/
def cS10b : L := cSH ++ cIn2 ++ cE10b ++ cIn2 ++ cD10

/-- A valid `uuid4().hex` draw (for witnesses). -/
def cDraw : L := "aaaaaaaaaaaa4aaa8aaaaaaaaaaaaaa0".data

/-- A second valid `uuid4().hex` draw agreeing with `cDraw` on its first 24
digits but differing in the tail that `[:24]` discards. -/
def cDraw2 : L := "aaaaaaaaaaaa4aaa8aaaaaaaaaaaaaa1".data

/-! ### Basic lemmas about the string primitives -/

/-- Boolean prefix test, in existential form. -/
theorem isPrefixOf_iff (p s : L) : p.isPrefixOf s = true ↔ ∃ t, s = p ++ t := by
  induction p generalizing s with
  | nil => simp [List.isPrefixOf]
  | cons a p ih =>
    cases s with
    | nil => simp [List.isPrefixOf]
    | cons b s =>
      simp only [List.isPrefixOf, Bool.and_eq_true, beq_iff_eq, ih,
        List.cons_append, List.cons.injEq]
      constructor
      · rintro ⟨rfl, t, rfl⟩
        exact ⟨t, rfl, rfl⟩
      · rintro ⟨t, rfl, rfl⟩
        exact ⟨rfl, t, rfl⟩

/-- A list is a prefix of itself extended by anything. -/
theorem append_isPrefixOf (p t : L) : p.isPrefixOf (p ++ t) = true :=
  (isPrefixOf_iff p (p ++ t)).mpr ⟨t, rfl⟩

/-- A non-empty pattern is not a prefix of the empty string. -/
theorem isPrefixOf_nil_eq_false {p : L} (h : p ≠ []) :
    p.isPrefixOf ([] : L) = false := by
  cases p with
  | nil => exact absurd rfl h
  | cons a q => simp [List.isPrefixOf]

/-- Beyond the end of `s` a non-empty pattern never matches. -/
theorem isPrefixOf_drop_of_ge {p s : L} (h : p ≠ []) {j : Nat}
    (hj : s.length ≤ j) : p.isPrefixOf (s.drop j) = false := by
  rw [List.drop_eq_nil_of_le hj]
  exact isPrefixOf_nil_eq_false h

/-- `re.search` on a literal finds the exhibited leftmost occurrence. -/
theorem substrPosAux_splice (pat post : L) (hne : pat ≠ []) :
    ∀ pre : L,
      (∀ j, j < pre.length → pat.isPrefixOf ((pre ++ pat ++ post).drop j) = false) →
      substrPosAux pat (pre ++ pat ++ post) = some pre.length := by
  intro pre
  induction pre with
  | nil =>
    intro _
    cases pat with
    | nil => exact absurd rfl hne
    | cons a q =>
      have hp := append_isPrefixOf (a :: q) post
      simp only [List.nil_append, List.cons_append] at hp ⊢
      simp [substrPosAux, hp]
  | cons c pre ih =>
    intro h
    have hic : (c :: pre) ++ pat ++ post = c :: (pre ++ pat ++ post) := by simp
    have h0 := h 0 (Nat.succ_pos _)
    rw [List.drop_zero, hic] at h0
    rw [hic]
    have ih' : substrPosAux pat (pre ++ pat ++ post) = some pre.length := by
      refine ih (fun j hj => ?_)
      have hj1 := h (j + 1) (by simpa using Nat.succ_lt_succ hj)
      rw [hic, List.drop_succ_cons] at hj1
      exact hj1
    rw [substrPosAux.eq_2, if_neg]
    · rw [ih']
      simp
    · rw [h0]
      exact Bool.false_ne_true

/-- The guarded insertion splices the block right after the exhibited
leftmost anchor occurrence. -/
theorem stepInsert_splice (anchor block pre post : L) (hne : anchor ≠ [])
    (hmin : ∀ j, j < pre.length → anchor.isPrefixOf ((pre ++ anchor ++ post).drop j) = false) :
    stepInsert anchor block (pre ++ anchor ++ post) = pre ++ anchor ++ block ++ post := by
  unfold stepInsert substrPos
  rw [substrPosAux_splice anchor post hne pre hmin]
  show (pre ++ anchor ++ post).take (pre.length + anchor.length) ++ block ++
      (pre ++ anchor ++ post).drop (pre.length + anchor.length) = pre ++ anchor ++ block ++ post
  have h1 : (pre ++ anchor ++ post).take (pre.length + anchor.length) = pre ++ anchor := by
    rw [← List.length_append]
    exact List.take_left _ _
  have h2 : (pre ++ anchor ++ post).drop (pre.length + anchor.length) = post := by
    rw [← List.length_append]
    exact List.drop_left _ _
  rw [h1, h2]

/-- The guarded insertion is the identity when the anchor is absent. -/
theorem stepInsert_skip (anchor block s : L) (h : substrPos anchor s = none) :
    stepInsert anchor block s = s := by
  unfold stepInsert
  rw [h]

/-! ### Lemmas about `replaceAll` (Python `str.replace`) -/

/-- `replaceAllF` on the empty string. -/
theorem replaceAllF_nil (old new : L) (fuel : Nat) : replaceAllF old new fuel [] = [] := by
  cases fuel <;> rfl

/-- `replaceAllF` with no fuel copies the string. -/
theorem replaceAllF_zero (old new s : L) : replaceAllF old new 0 s = s := by
  cases s <;> rfl

/-- Unfolding equation of `replaceAllF` in the recursive case. -/
theorem replaceAllF_succ (old new : L) (fuel : Nat) (c : Char) (rest : L) :
    replaceAllF old new (fuel + 1) (c :: rest) =
      if old ≠ [] ∧ old.isPrefixOf (c :: rest) = true then
        new ++ replaceAllF old new fuel ((c :: rest).drop old.length)
      else c :: replaceAllF old new fuel rest := rfl

/-- `str.replace` is the identity on a string without occurrences. -/
theorem replaceAllF_no_occ (old new : L) (hne : old ≠ []) :
    ∀ (fuel : Nat) (s : L), (∀ j, old.isPrefixOf (s.drop j) = false) →
      replaceAllF old new fuel s = s := by
  intro fuel
  induction fuel with
  | zero => intro s _; exact replaceAllF_zero old new s
  | succ f ih =>
    intro s h
    cases s with
    | nil => rfl
    | cons c rest =>
      rw [replaceAllF_succ, if_neg]
      · rw [ih rest (fun j => by have hj := h (j + 1); rwa [List.drop_succ_cons] at hj)]
      · intro hcontra
        have h0 := h 0
        rw [List.drop_zero, hcontra.2] at h0
        exact Bool.noConfusion h0

/-- `str.replace` rewrites the leftmost occurrence and scans on behind it. -/
theorem replaceAllF_step (old new : L) (hne : old ≠ []) :
    ∀ (C : L), ∀ (T : L) (fuel : Nat), (C ++ old ++ T).length ≤ fuel →
      (∀ j, j < C.length → old.isPrefixOf ((C ++ old ++ T).drop j) = false) →
      ∃ fuel', T.length ≤ fuel' ∧
        replaceAllF old new fuel (C ++ old ++ T) = C ++ new ++ replaceAllF old new fuel' T := by
  intro C
  induction C with
  | nil =>
    intro T fuel hlen _
    cases old with
    | nil => exact absurd rfl hne
    | cons a q =>
      cases fuel with
      | zero =>
        exfalso
        simp [List.length_append] at hlen
      | succ f =>
        have hsp : (a :: q).isPrefixOf ((a :: q) ++ T) = true := append_isPrefixOf _ _
        rw [List.nil_append]
        rw [show (a :: q) ++ T = a :: (q ++ T) from rfl]
        rw [replaceAllF_succ, if_pos]
        · refine ⟨f, ?_, ?_⟩
          · simp only [List.nil_append, List.length_append, List.length_cons] at hlen
            omega
          · rw [show (a :: (q ++ T)) = (a :: q) ++ T from rfl, List.drop_left]
            simp
        · refine ⟨hne, ?_⟩
          rw [show a :: (q ++ T) = (a :: q) ++ T from rfl]
          exact hsp
  | cons c C' ih =>
    intro T fuel hlen hmin
    have hic : (c :: C') ++ old ++ T = c :: (C' ++ old ++ T) := by simp
    rw [hic] at hlen ⊢
    cases fuel with
    | zero =>
      exfalso
      simp at hlen
    | succ f =>
      have h0 : old.isPrefixOf (c :: (C' ++ old ++ T)) = false := by
        have hm := hmin 0 (Nat.succ_pos _)
        rwa [List.drop_zero, hic] at hm
      rw [replaceAllF_succ, if_neg]
      · have hmin' : ∀ j, j < C'.length → old.isPrefixOf ((C' ++ old ++ T).drop j) = false := by
          intro j hj
          have hm := hmin (j + 1) (by simpa using Nat.succ_lt_succ hj)
          rwa [hic, List.drop_succ_cons] at hm
        have hlen' : (C' ++ old ++ T).length ≤ f := by
          simp only [List.length_cons] at hlen
          omega
        obtain ⟨fuel', hf, heq⟩ := ih T f hlen' hmin'
        refine ⟨fuel', hf, ?_⟩
        rw [heq]
        simp
      · intro hcontra
        rw [hcontra.2] at h0
        exact Bool.noConfusion h0

/-- `str.replace` on a string with exactly the exhibited occurrence. -/
theorem replaceAll_splice (old new C D : L) (hne : old ≠ [])
    (h1 : ∀ j, j < C.length → old.isPrefixOf ((C ++ old ++ D).drop j) = false)
    (h2 : ∀ j, old.isPrefixOf (D.drop j) = false) :
    replaceAll old new (C ++ old ++ D) = C ++ new ++ D := by
  obtain ⟨fuel', _, heq⟩ :=
    replaceAllF_step old new hne C D (C ++ old ++ D).length (Nat.le_refl _) h1
  unfold replaceAll
  rw [heq, replaceAllF_no_occ old new hne fuel' D h2]

/-- `str.replace` on a string with exactly the two exhibited occurrences:
both are rewritten. -/
theorem replaceAll_splice2 (old new C E D : L) (hne : old ≠ [])
    (h1 : ∀ j, j < C.length → old.isPrefixOf ((C ++ old ++ (E ++ old ++ D)).drop j) = false)
    (h2 : ∀ j, j < E.length → old.isPrefixOf ((E ++ old ++ D).drop j) = false)
    (h3 : ∀ j, old.isPrefixOf (D.drop j) = false) :
    replaceAll old new (C ++ old ++ (E ++ old ++ D)) = C ++ new ++ (E ++ new ++ D) := by
  obtain ⟨f1, hf1, heq1⟩ :=
    replaceAllF_step old new hne C (E ++ old ++ D) (C ++ old ++ (E ++ old ++ D)).length
      (Nat.le_refl _) h1
  obtain ⟨f2, hf2, heq2⟩ := replaceAllF_step old new hne E D f1 hf1 h2
  unfold replaceAll
  rw [heq1, heq2, replaceAllF_no_occ old new hne f2 D h3]

/-! ### Counting lemmas (bracket balance) -/

/-- Counts split over `take`/`drop`. -/
theorem count_take_drop (c : Char) (n : Nat) (s : L) :
    (s.take n).count c + (s.drop n).count c = s.count c := by
  rw [← List.count_append, List.take_append_drop]

/-- A guarded insertion either skips or splices the block at some cut. -/
theorem stepInsert_eq_or (anchor block s : L) :
    stepInsert anchor block s = s ∨
      ∃ n, stepInsert anchor block s = s.take n ++ block ++ s.drop n := by
  unfold stepInsert
  cases substrPos anchor s with
  | none => exact Or.inl rfl
  | some p => exact Or.inr ⟨p + anchor.length, rfl⟩

/-- `replaceAllF` preserves the count of a character counted equally by the
replacement and the replaced text. -/
theorem count_replaceAllF (old new : L) (c : Char) (h : new.count c = old.count c) :
    ∀ (fuel : Nat) (s : L), (replaceAllF old new fuel s).count c = s.count c := by
  intro fuel
  induction fuel with
  | zero => intro s; rw [replaceAllF_zero]
  | succ f ih =>
    intro s
    cases s with
    | nil => rw [replaceAllF_nil]
    | cons a rest =>
      rw [replaceAllF_succ]
      by_cases hc : old ≠ [] ∧ old.isPrefixOf (a :: rest) = true
      · rw [if_pos hc]
        obtain ⟨t, ht⟩ := (isPrefixOf_iff old (a :: rest)).mp hc.2
        rw [ht, List.drop_left, List.count_append, List.count_append, ih, h]
      · rw [if_neg hc]
        simp [List.count_cons, ih]

/-- `str.replace` preserves such counts. -/
theorem count_replaceAll (old new s : L) (c : Char) (h : new.count c = old.count c) :
    (replaceAll old new s).count c = s.count c :=
  count_replaceAllF old new c h s.length s

/-- `rstrip` only removes whitespace, hence preserves other counts. -/
theorem count_rstrip (s : L) (c : Char) (hc : isPyWS c = false) :
    (rstrip s).count c = s.count c := by
  unfold rstrip
  rw [List.count_reverse]
  have key : ∀ t : L, (t.dropWhile isPyWS).count c = t.count c := by
    intro t
    induction t with
    | nil => rfl
    | cons a t ih =>
      by_cases ha : isPyWS a = true
      · have hne : ¬(c = a) := by
          intro h
          rw [h, ha] at hc
          exact Bool.noConfusion hc
        simp [List.dropWhile_cons, ha, ih, List.count_cons, hne]
      · simp [List.dropWhile_cons, ha]
  rw [key, List.count_reverse]

/-! ### Identifier generation -/

/-- Uppercasing a `uuid4` hex digit yields an `[A-F0-9]` digit. -/
theorem lowHex_pyUpper_hex : ∀ c ∈ lowHexChars, isHexUp (pyUpper c) = true := by
  decide

/-- Uppercasing is injective on the `uuid4` hex digits. -/
theorem lowHex_pyUpper_inj :
    ∀ c ∈ lowHexChars, ∀ d ∈ lowHexChars, pyUpper c = pyUpper d → c = d := by
  decide

/-- Membership form of `isLowerHex`. -/
theorem isLowerHex_mem {c : Char} (h : isLowerHex c = true) : c ∈ lowHexChars := by
  unfold isLowerHex at h
  simpa using h

/-- The generated identifier has 24 characters. -/
theorem gen_length {d : L} (hd : d.length = 32) :
    (generate_xcode_uuid d).length = 24 := by
  unfold generate_xcode_uuid
  rw [List.length_take, List.length_map, hd]
  decide

/-- The generated identifier consists of uppercase hex digits. -/
theorem gen_all_hex {d : L} (hd : d.all isLowerHex = true) :
    ∀ c ∈ generate_xcode_uuid d, isHexUp c = true := by
  intro c hc
  unfold generate_xcode_uuid at hc
  have hc' := List.take_subset 24 (d.map pyUpper) hc
  obtain ⟨a, ha, rfl⟩ := List.mem_map.mp hc'
  have hla : isLowerHex a = true := List.all_eq_true.mp hd a ha
  exact lowHex_pyUpper_hex a (isLowerHex_mem hla)

/-- Uppercasing is injective on strings of `uuid4` hex digits. -/
theorem map_pyUpper_inj :
    ∀ xs ys : L, (∀ c ∈ xs, c ∈ lowHexChars) → (∀ c ∈ ys, c ∈ lowHexChars) →
      xs.map pyUpper = ys.map pyUpper → xs = ys := by
  intro xs
  induction xs with
  | nil =>
    intro ys _ _ h
    cases ys with
    | nil => rfl
    | cons b ys => simp at h
  | cons a xs ih =>
    intro ys hx hy h
    cases ys with
    | nil => simp at h
    | cons b ys =>
      simp only [List.map_cons, List.cons.injEq] at h
      have hab := lowHex_pyUpper_inj a (hx a (by simp)) b (hy b (by simp)) h.1
      rw [hab, ih ys (fun c hc => hx c (by simp [hc])) (fun c hc => hy c (by simp [hc])) h.2]

/-- Draws that differ within the 24 digits kept by `[:24]` generate
different identifiers. -/
theorem gen_ne_of_take_ne {d e : L} (hd : d.all isLowerHex = true)
    (he : e.all isLowerHex = true) (hne : d.take 24 ≠ e.take 24) :
    generate_xcode_uuid d ≠ generate_xcode_uuid e := by
  intro h
  apply hne
  unfold generate_xcode_uuid at h
  rw [← List.map_take, ← List.map_take] at h
  exact map_pyUpper_inj (d.take 24) (e.take 24)
    (fun c hc => isLowerHex_mem (List.all_eq_true.mp hd c (List.take_subset 24 d hc)))
    (fun c hc => isLowerHex_mem (List.all_eq_true.mp he c (List.take_subset 24 e hc)))
    h

/-! ### Step equations -/

/-- Step 3a when both Features searches hit: a whole-string replace. -/
theorem step_features_replace (u_g s fgu inner : L) (hf : featuresSearch s = some fgu)
    (hc : childrenSearch fgu s = some inner) :
    step_features u_g s = replaceAll inner (rstrip inner ++ childTail u_g) s := by
  unfold step_features
  simp only [hf, hc]

/-- Step 3a is skipped when the Features group regex does not match. -/
theorem step_features_none (u_g s : L) (hf : featuresSearch s = none) :
    step_features u_g s = s := by
  unfold step_features
  simp only [hf]

/-- Step 3a is skipped when the children listing regex does not match. -/
theorem step_features_none2 (u_g s fgu : L) (hf : featuresSearch s = some fgu)
    (hc : childrenSearch fgu s = none) : step_features u_g s = s := by
  unfold step_features
  simp only [hf, hc]

/-- Step 4 when both Sources searches hit: a whole-string replace. -/
theorem step_sources_replace (u_vb u_vmb s su inner : L) (hs : sourcesSearch s = some su)
    (hc : filesSearch su s = some inner) :
    step_sources u_vb u_vmb s = replaceAll inner (rstrip inner ++ filesTail u_vb u_vmb) s := by
  unfold step_sources
  simp only [hs, hc]

/-- Step 4 is skipped when the Sources phase regex does not match. -/
theorem step_sources_none (u_vb u_vmb s : L) (hs : sourcesSearch s = none) :
    step_sources u_vb u_vmb s = s := by
  unfold step_sources
  simp only [hs]

/-- Step 4 is skipped when the files listing regex does not match. -/
theorem step_sources_none2 (u_vb u_vmb s su : L) (hs : sourcesSearch s = some su)
    (hc : filesSearch su s = none) : step_sources u_vb u_vmb s = s := by
  unfold step_sources
  simp only [hs, hc]

/-! ### The captured listing of a successful search is never empty -/

/-- A hit of the backtracking helper comes from some attempt. -/
theorem lastHit_some (f : Nat → Option L) :
    ∀ (k : Nat) (r : L), lastHit f k = some r → ∃ j, f j = some r := by
  intro k
  induction k with
  | zero =>
    intro r h
    simp [lastHit] at h
  | succ k ih =>
    intro r h
    cases hf : f (k + 1) with
    | some v =>
      refine ⟨k + 1, ?_⟩
      rw [hf]
      unfold lastHit at h
      rw [hf] at h
      exact h
    | none =>
      unfold lastHit at h
      rw [hf] at h
      exact ih r h

/-- One backtracking attempt never captures an empty listing. -/
theorem innerTry_ne_nil (lc t : L) (k : Nat) (r : L) (h : innerTry lc t k = some r) :
    r ≠ [] := by
  unfold innerTry at h
  by_cases h1 : lc.isPrefixOf (t.drop k) = true
  · rw [if_pos h1] at h
    by_cases h2 : (((t.drop k).drop lc.length).takeWhile (fun c => !(c == ')'))).isEmpty = false ∧
        closeParen.isPrefixOf (((t.drop k).drop lc.length).drop
          ((((t.drop k).drop lc.length).takeWhile (fun c => !(c == ')'))).length)) = true
    · rw [if_pos h2] at h
      cases h
      intro hnil
      rw [hnil] at h2
      simp at h2
    · rw [if_neg h2] at h
      exact Option.noConfusion h
  · rw [if_neg h1] at h
    exact Option.noConfusion h

/-- The `([^)]+)` group captured by the backtracking tail is non-empty. -/
theorem innerAt_ne_nil (lc t r : L) (h : innerAt lc t = some r) : r ≠ [] := by
  unfold innerAt at h
  obtain ⟨j, hj⟩ := lastHit_some _ _ _ h
  exact innerTry_ne_nil lc t j r hj

/-- The listing captured by a successful identifier-anchored search is
non-empty. -/
theorem searchInner_ne_nil (uuid lit lc : L) :
    ∀ (s r : L), searchInner uuid lit lc s = some r → r ≠ [] := by
  intro s
  induction s with
  | nil =>
    intro r h
    simp [searchInner] at h
  | cons c rest ih =>
    intro r h
    cases hi : innerHead uuid lit lc (c :: rest) with
    | some v =>
      unfold searchInner at h
      simp only [hi] at h
      cases h
      unfold innerHead at hi
      by_cases hp : (uuid ++ lit).isPrefixOf (c :: rest) = true
      · rw [if_pos hp] at hi
        exact innerAt_ne_nil _ _ _ hi
      · rw [if_neg hp] at hi
        exact Option.noConfusion hi
    | none =>
      unfold searchInner at h
      simp only [hi] at h
      exact ih r h

/-! ### Packaged step-splice lemmas -/

/-- `stepInsert_splice` with the scanned string and the result packaged as
equalities, so that re-association is pushed into the side conditions. -/
theorem stepInsert_splice' (anchor block pre post s t : L) (hne : anchor ≠ [])
    (hs : s = pre ++ anchor ++ post)
    (hmin : ∀ j, j < pre.length → anchor.isPrefixOf (s.drop j) = false)
    (ht : t = pre ++ anchor ++ block ++ post) :
    stepInsert anchor block s = t := by
  subst hs
  subst ht
  exact stepInsert_splice anchor block pre post hne hmin

/-- Step 3a under exhibited searches and a unique listing occurrence:
the children listing is rewritten in place. -/
theorem step_features_splice (u_g s fgu inner C D t : L)
    (hf : featuresSearch s = some fgu)
    (hc : childrenSearch fgu s = some inner)
    (hs : s = C ++ inner ++ D)
    (hmin : ∀ j, j < C.length → inner.isPrefixOf (s.drop j) = false)
    (hD : ∀ j, j < D.length → inner.isPrefixOf (D.drop j) = false)
    (ht : t = C ++ (rstrip inner ++ childTail u_g) ++ D) :
    step_features u_g s = t := by
  have hne : inner ≠ [] := searchInner_ne_nil fgu litFeat litChildren s inner hc
  subst hs
  subst ht
  rw [step_features_replace u_g _ fgu inner hf hc]
  refine replaceAll_splice inner _ C D hne hmin (fun j => ?_)
  by_cases hj : j < D.length
  · exact hD j hj
  · exact isPrefixOf_drop_of_ge hne (Nat.le_of_not_lt hj)

/-- Step 4 under exhibited searches and a unique listing occurrence:
the files listing is rewritten in place. -/
theorem step_sources_splice (u_vb u_vmb s su inner C D t : L)
    (hs : sourcesSearch s = some su)
    (hc : filesSearch su s = some inner)
    (hseq : s = C ++ inner ++ D)
    (hmin : ∀ j, j < C.length → inner.isPrefixOf (s.drop j) = false)
    (hD : ∀ j, j < D.length → inner.isPrefixOf (D.drop j) = false)
    (ht : t = C ++ (rstrip inner ++ filesTail u_vb u_vmb) ++ D) :
    step_sources u_vb u_vmb s = t := by
  have hne : inner ≠ [] := searchInner_ne_nil su litSrc litFiles s inner hc
  subst hseq
  subst ht
  rw [step_sources_replace u_vb u_vmb _ su inner hs hc]
  refine replaceAll_splice inner _ C D hne hmin (fun j => ?_)
  by_cases hj : j < D.length
  · exact hD j hj
  · exact isPrefixOf_drop_of_ge hne (Nat.le_of_not_lt hj)

/-! ### `rstrip` fixed points -/

/-- `rstrip` is the identity on a string ending in a non-whitespace char. -/
theorem rstrip_snoc (X : L) (c : Char) (hc : isPyWS c = false) :
    rstrip (X ++ [c]) = X ++ [c] := by
  unfold rstrip
  rw [List.reverse_append]
  simp only [List.reverse_cons, List.reverse_nil, List.nil_append, List.singleton_append]
  rw [List.dropWhile_cons, if_neg (by simp [hc])]
  simp

/-- `rstrip` is the identity on anything exhibited as ending in a
non-whitespace char. -/
theorem rstrip_eq_self_snocEq (s X : L) (c : Char) (hc : isPyWS c = false)
    (h : s = X ++ [c]) : rstrip s = s := by
  rw [h]
  exact rstrip_snoc X c hc

/-- A children listing that already ends in an appended member is left
unchanged by `rstrip` (the member ends in a comma). -/
theorem rstrip_append_childTail (X u : L) :
    rstrip (X ++ childTail u) = X ++ childTail u := by
  refine rstrip_eq_self_snocEq _
    (X ++ ("\n\t\t\t\t".data ++ u ++ " /* AudioProcessorTest */".data)) ',' (by decide) ?_
  unfold childTail
  have hc2 : " /* AudioProcessorTest */,".data = " /* AudioProcessorTest */".data ++ [','] := by
    decide
  rw [hc2]
  simp [List.append_assoc]

/-- A files listing that already ends in appended members is left unchanged
by `rstrip`. -/
theorem rstrip_append_filesTail (X u v : L) :
    rstrip (X ++ filesTail u v) = X ++ filesTail u v := by
  refine rstrip_eq_self_snocEq _
    (X ++ ("\n\t\t\t\t".data ++ u ++
      " /* AudioProcessorTestView.swift in Sources */,\n\t\t\t\t".data ++ v ++
      " /* AudioProcessorTestViewModel.swift in Sources */".data)) ',' (by decide) ?_
  unfold filesTail
  have hc2 : " /* AudioProcessorTestViewModel.swift in Sources */,".data =
      " /* AudioProcessorTestViewModel.swift in Sources */".data ++ [','] := by
    decide
  rw [hc2]
  simp [List.append_assoc]

/-! ### The full-splice characterization of one run -/

/-- For a manifest exhibited in canonical shape -- the three literal anchors
at their leftmost occurrences, a Features group whose children listing `in1`
occurs nowhere else, and a Sources phase whose files listing `in2` occurs
nowhere else -- one run performs exactly the five insertions, in place. -/
theorem patch_splice
    (u_vr u_vmr u_vb u_vmb u_g P1 P2 P3 P4 FH in1 P5 SH in2 P6 fgu su : L)
    (h1 : ∀ j, j < P1.length → bfA.isPrefixOf ((P1 ++ bfA ++ P2 ++ frA ++ P3 ++ grpA ++ P4 ++ FH ++ in1 ++ closeParen ++ P5 ++ SH ++ in2 ++ closeParen ++ P6).drop j) = false)
    (h2 : ∀ j, j < (P1 ++ bfA ++ buildEntries u_vb u_vr u_vmb u_vmr ++ P2).length → frA.isPrefixOf ((P1 ++ bfA ++ buildEntries u_vb u_vr u_vmb u_vmr ++ P2 ++ frA ++ P3 ++ grpA ++ P4 ++ FH ++ in1 ++ closeParen ++ P5 ++ SH ++ in2 ++ closeParen ++ P6).drop j) = false)
    (hfe : featuresSearch (P1 ++ bfA ++ buildEntries u_vb u_vr u_vmb u_vmr ++ P2 ++ frA ++ fileEntries u_vr u_vmr ++ P3 ++ grpA ++ P4 ++ FH ++ in1 ++ closeParen ++ P5 ++ SH ++ in2 ++ closeParen ++ P6) = some fgu)
    (hch : childrenSearch fgu (P1 ++ bfA ++ buildEntries u_vb u_vr u_vmb u_vmr ++ P2 ++ frA ++ fileEntries u_vr u_vmr ++ P3 ++ grpA ++ P4 ++ FH ++ in1 ++ closeParen ++ P5 ++ SH ++ in2 ++ closeParen ++ P6) = some in1)
    (h3 : ∀ j, j < (P1 ++ bfA ++ buildEntries u_vb u_vr u_vmb u_vmr ++ P2 ++ frA ++ fileEntries u_vr u_vmr ++ P3 ++ grpA ++ P4 ++ FH).length → in1.isPrefixOf ((P1 ++ bfA ++ buildEntries u_vb u_vr u_vmb u_vmr ++ P2 ++ frA ++ fileEntries u_vr u_vmr ++ P3 ++ grpA ++ P4 ++ FH ++ in1 ++ closeParen ++ P5 ++ SH ++ in2 ++ closeParen ++ P6).drop j) = false)
    (h3D : ∀ j, j < (closeParen ++ P5 ++ SH ++ in2 ++ closeParen ++ P6).length → in1.isPrefixOf ((closeParen ++ P5 ++ SH ++ in2 ++ closeParen ++ P6).drop j) = false)
    (h4 : ∀ j, j < (P1 ++ bfA ++ buildEntries u_vb u_vr u_vmb u_vmr ++ P2 ++ frA ++ fileEntries u_vr u_vmr ++ P3).length → grpA.isPrefixOf ((P1 ++ bfA ++ buildEntries u_vb u_vr u_vmb u_vmr ++ P2 ++ frA ++ fileEntries u_vr u_vmr ++ P3 ++ grpA ++ P4 ++ FH ++ (rstrip in1 ++ childTail u_g) ++ closeParen ++ P5 ++ SH ++ in2 ++ closeParen ++ P6).drop j) = false)
    (hso : sourcesSearch (P1 ++ bfA ++ buildEntries u_vb u_vr u_vmb u_vmr ++ P2 ++ frA ++ fileEntries u_vr u_vmr ++ P3 ++ grpA ++ groupEntry u_g u_vr u_vmr ++ P4 ++ FH ++ (rstrip in1 ++ childTail u_g) ++ closeParen ++ P5 ++ SH ++ in2 ++ closeParen ++ P6) = some su)
    (hfi : filesSearch su (P1 ++ bfA ++ buildEntries u_vb u_vr u_vmb u_vmr ++ P2 ++ frA ++ fileEntries u_vr u_vmr ++ P3 ++ grpA ++ groupEntry u_g u_vr u_vmr ++ P4 ++ FH ++ (rstrip in1 ++ childTail u_g) ++ closeParen ++ P5 ++ SH ++ in2 ++ closeParen ++ P6) = some in2)
    (h5 : ∀ j, j < (P1 ++ bfA ++ buildEntries u_vb u_vr u_vmb u_vmr ++ P2 ++ frA ++ fileEntries u_vr u_vmr ++ P3 ++ grpA ++ groupEntry u_g u_vr u_vmr ++ P4 ++ FH ++ (rstrip in1 ++ childTail u_g) ++ closeParen ++ P5 ++ SH).length → in2.isPrefixOf ((P1 ++ bfA ++ buildEntries u_vb u_vr u_vmb u_vmr ++ P2 ++ frA ++ fileEntries u_vr u_vmr ++ P3 ++ grpA ++ groupEntry u_g u_vr u_vmr ++ P4 ++ FH ++ (rstrip in1 ++ childTail u_g) ++ closeParen ++ P5 ++ SH ++ in2 ++ closeParen ++ P6).drop j) = false)
    (h5D : ∀ j, j < (closeParen ++ P6).length → in2.isPrefixOf ((closeParen ++ P6).drop j) = false) :
    patchContent u_vr u_vmr u_vb u_vmb u_g (P1 ++ bfA ++ P2 ++ frA ++ P3 ++ grpA ++ P4 ++ FH ++ in1 ++ closeParen ++ P5 ++ SH ++ in2 ++ closeParen ++ P6) = P1 ++ bfA ++ buildEntries u_vb u_vr u_vmb u_vmr ++ P2 ++ frA ++ fileEntries u_vr u_vmr ++ P3 ++ grpA ++ groupEntry u_g u_vr u_vmr ++ P4 ++ FH ++ (rstrip in1 ++ childTail u_g) ++ closeParen ++ P5 ++ SH ++ (rstrip in2 ++ filesTail u_vb u_vmb) ++ closeParen ++ P6 := by
  unfold patchContent
  rw [show step_build u_vb u_vr u_vmb u_vmr (P1 ++ bfA ++ P2 ++ frA ++ P3 ++ grpA ++ P4 ++ FH ++ in1 ++ closeParen ++ P5 ++ SH ++ in2 ++ closeParen ++ P6) = P1 ++ bfA ++ buildEntries u_vb u_vr u_vmb u_vmr ++ P2 ++ frA ++ P3 ++ grpA ++ P4 ++ FH ++ in1 ++ closeParen ++ P5 ++ SH ++ in2 ++ closeParen ++ P6 from by
    unfold step_build
    exact stepInsert_splice' bfA (buildEntries u_vb u_vr u_vmb u_vmr) P1
      (P2 ++ frA ++ P3 ++ grpA ++ P4 ++ FH ++ in1 ++ closeParen ++ P5 ++ SH ++ in2 ++ closeParen ++ P6) _ _ (by decide) (by simp only [List.append_assoc]) h1
      (by simp only [List.append_assoc])]
  rw [show step_fileref u_vr u_vmr (P1 ++ bfA ++ buildEntries u_vb u_vr u_vmb u_vmr ++ P2 ++ frA ++ P3 ++ grpA ++ P4 ++ FH ++ in1 ++ closeParen ++ P5 ++ SH ++ in2 ++ closeParen ++ P6) = P1 ++ bfA ++ buildEntries u_vb u_vr u_vmb u_vmr ++ P2 ++ frA ++ fileEntries u_vr u_vmr ++ P3 ++ grpA ++ P4 ++ FH ++ in1 ++ closeParen ++ P5 ++ SH ++ in2 ++ closeParen ++ P6 from by
    unfold step_fileref
    exact stepInsert_splice' frA (fileEntries u_vr u_vmr) (P1 ++ bfA ++ buildEntries u_vb u_vr u_vmb u_vmr ++ P2)
      (P3 ++ grpA ++ P4 ++ FH ++ in1 ++ closeParen ++ P5 ++ SH ++ in2 ++ closeParen ++ P6) _ _ (by decide) (by simp only [List.append_assoc]) h2
      (by simp only [List.append_assoc])]
  rw [show step_features u_g (P1 ++ bfA ++ buildEntries u_vb u_vr u_vmb u_vmr ++ P2 ++ frA ++ fileEntries u_vr u_vmr ++ P3 ++ grpA ++ P4 ++ FH ++ in1 ++ closeParen ++ P5 ++ SH ++ in2 ++ closeParen ++ P6) = P1 ++ bfA ++ buildEntries u_vb u_vr u_vmb u_vmr ++ P2 ++ frA ++ fileEntries u_vr u_vmr ++ P3 ++ grpA ++ P4 ++ FH ++ (rstrip in1 ++ childTail u_g) ++ closeParen ++ P5 ++ SH ++ in2 ++ closeParen ++ P6 from by
    exact step_features_splice u_g _ fgu in1 (P1 ++ bfA ++ buildEntries u_vb u_vr u_vmb u_vmr ++ P2 ++ frA ++ fileEntries u_vr u_vmr ++ P3 ++ grpA ++ P4 ++ FH) (closeParen ++ P5 ++ SH ++ in2 ++ closeParen ++ P6) _ hfe hch
      (by simp only [List.append_assoc]) h3 h3D (by simp only [List.append_assoc])]
  rw [show step_group u_g u_vr u_vmr (P1 ++ bfA ++ buildEntries u_vb u_vr u_vmb u_vmr ++ P2 ++ frA ++ fileEntries u_vr u_vmr ++ P3 ++ grpA ++ P4 ++ FH ++ (rstrip in1 ++ childTail u_g) ++ closeParen ++ P5 ++ SH ++ in2 ++ closeParen ++ P6) = P1 ++ bfA ++ buildEntries u_vb u_vr u_vmb u_vmr ++ P2 ++ frA ++ fileEntries u_vr u_vmr ++ P3 ++ grpA ++ groupEntry u_g u_vr u_vmr ++ P4 ++ FH ++ (rstrip in1 ++ childTail u_g) ++ closeParen ++ P5 ++ SH ++ in2 ++ closeParen ++ P6 from by
    unfold step_group
    exact stepInsert_splice' grpA (groupEntry u_g u_vr u_vmr) (P1 ++ bfA ++ buildEntries u_vb u_vr u_vmb u_vmr ++ P2 ++ frA ++ fileEntries u_vr u_vmr ++ P3)
      (P4 ++ FH ++ (rstrip in1 ++ childTail u_g) ++ closeParen ++ P5 ++ SH ++ in2 ++ closeParen ++ P6) _ _ (by decide) (by simp only [List.append_assoc]) h4
      (by simp only [List.append_assoc])]
  exact step_sources_splice u_vb u_vmb _ su in2 (P1 ++ bfA ++ buildEntries u_vb u_vr u_vmb u_vmr ++ P2 ++ frA ++ fileEntries u_vr u_vmr ++ P3 ++ grpA ++ groupEntry u_g u_vr u_vmr ++ P4 ++ FH ++ (rstrip in1 ++ childTail u_g) ++ closeParen ++ P5 ++ SH) (closeParen ++ P6) _ hso hfi
    (by simp only [List.append_assoc]) h5 h5D (by simp only [List.append_assoc])

/-- Soundness of the linear no-occurrence scan. -/
theorem noOccPre_spec (pat : L) (hne : pat ≠ []) :
    ∀ (X s : L), noOccPre pat X s = true →
      ∀ j, j < X.length → pat.isPrefixOf (s.drop j) = false := by
  intro X
  induction X with
  | nil =>
    intro s _ j hj
    simp at hj
  | cons x xr ih =>
    intro s h j hj
    cases s with
    | nil =>
      rw [List.drop_nil]
      exact isPrefixOf_nil_eq_false hne
    | cons c sr =>
      have h' : pat.isPrefixOf (c :: sr) = false ∧ noOccPre pat xr sr = true := by
        have hh : (!(pat.isPrefixOf (c :: sr)) && noOccPre pat xr sr) = true := h
        constructor
        · have h1 := (Bool.and_eq_true _ _).mp hh |>.1
          cases hb : pat.isPrefixOf (c :: sr)
          · rfl
          · rw [hb] at h1
            exact Bool.noConfusion h1
        · exact (Bool.and_eq_true _ _).mp hh |>.2
      cases j with
      | zero =>
        rw [List.drop_zero]
        exact h'.1
      | succ i =>
        rw [List.drop_succ_cons]
        refine ih sr h'.2 i ?_
        simp only [List.length_cons] at hj
        omega


/-- C1: for every manifest string exhibiting the four required anchors (the
build-file section-open marker at its leftmost occurrence, the file-reference
section-open marker, a Features group with parenthesized children listing
`in1` occurring nowhere else, the group section-open marker, and a Sources
build phase with parenthesized files listing `in2` occurring nowhere else),
one run of `add_files_to_pbxproj` produces exactly the manifest with: the two
build-file entries `buildEntries` (each binding its build-file identifier to
the matching file-reference identifier) spliced after the build-file marker,
the two file-reference entries `fileEntries` spliced after the file-reference
marker, the one new group record `groupEntry` (whose children are exactly the
two file-reference identifiers) spliced after the group marker, exactly one
member `childTail u_g` (the new group identifier) appended to the Features
children listing, and exactly the two members `filesTail u_vb u_vmb` (the two
build-file identifiers) appended to the Sources files listing -- and nothing
else changed. -/
theorem c1_single_run_inserts_all
    (u_vr u_vmr u_vb u_vmb u_g P1 P2 P3 P4 FH in1 P5 SH in2 P6 fgu su : L)
    (h1 : ∀ j, j < (P1).length → bfA.isPrefixOf ((P1 ++ bfA ++ P2 ++ frA ++ P3 ++ grpA ++ P4 ++ FH ++ in1 ++ closeParen ++ P5 ++ SH ++ in2 ++ closeParen ++ P6).drop j) = false)
    (h2 : ∀ j, j < (P1 ++ bfA ++ buildEntries u_vb u_vr u_vmb u_vmr ++ P2).length → frA.isPrefixOf ((P1 ++ bfA ++ buildEntries u_vb u_vr u_vmb u_vmr ++ P2 ++ frA ++ P3 ++ grpA ++ P4 ++ FH ++ in1 ++ closeParen ++ P5 ++ SH ++ in2 ++ closeParen ++ P6).drop j) = false)
    (hfe : featuresSearch (P1 ++ bfA ++ buildEntries u_vb u_vr u_vmb u_vmr ++ P2 ++ frA ++ fileEntries u_vr u_vmr ++ P3 ++ grpA ++ P4 ++ FH ++ in1 ++ closeParen ++ P5 ++ SH ++ in2 ++ closeParen ++ P6) = some fgu)
    (hch : childrenSearch fgu (P1 ++ bfA ++ buildEntries u_vb u_vr u_vmb u_vmr ++ P2 ++ frA ++ fileEntries u_vr u_vmr ++ P3 ++ grpA ++ P4 ++ FH ++ in1 ++ closeParen ++ P5 ++ SH ++ in2 ++ closeParen ++ P6) = some in1)
    (h3 : ∀ j, j < (P1 ++ bfA ++ buildEntries u_vb u_vr u_vmb u_vmr ++ P2 ++ frA ++ fileEntries u_vr u_vmr ++ P3 ++ grpA ++ P4 ++ FH).length → (in1).isPrefixOf ((P1 ++ bfA ++ buildEntries u_vb u_vr u_vmb u_vmr ++ P2 ++ frA ++ fileEntries u_vr u_vmr ++ P3 ++ grpA ++ P4 ++ FH ++ in1 ++ closeParen ++ P5 ++ SH ++ in2 ++ closeParen ++ P6).drop j) = false)
    (h3D : ∀ j, j < (closeParen ++ P5 ++ SH ++ in2 ++ closeParen ++ P6).length → (in1).isPrefixOf ((closeParen ++ P5 ++ SH ++ in2 ++ closeParen ++ P6).drop j) = false)
    (h4 : ∀ j, j < (P1 ++ bfA ++ buildEntries u_vb u_vr u_vmb u_vmr ++ P2 ++ frA ++ fileEntries u_vr u_vmr ++ P3).length → grpA.isPrefixOf ((P1 ++ bfA ++ buildEntries u_vb u_vr u_vmb u_vmr ++ P2 ++ frA ++ fileEntries u_vr u_vmr ++ P3 ++ grpA ++ P4 ++ FH ++ (rstrip in1 ++ childTail u_g) ++ closeParen ++ P5 ++ SH ++ in2 ++ closeParen ++ P6).drop j) = false)
    (hso : sourcesSearch (P1 ++ bfA ++ buildEntries u_vb u_vr u_vmb u_vmr ++ P2 ++ frA ++ fileEntries u_vr u_vmr ++ P3 ++ grpA ++ groupEntry u_g u_vr u_vmr ++ P4 ++ FH ++ (rstrip in1 ++ childTail u_g) ++ closeParen ++ P5 ++ SH ++ in2 ++ closeParen ++ P6) = some su)
    (hfi : filesSearch su (P1 ++ bfA ++ buildEntries u_vb u_vr u_vmb u_vmr ++ P2 ++ frA ++ fileEntries u_vr u_vmr ++ P3 ++ grpA ++ groupEntry u_g u_vr u_vmr ++ P4 ++ FH ++ (rstrip in1 ++ childTail u_g) ++ closeParen ++ P5 ++ SH ++ in2 ++ closeParen ++ P6) = some in2)
    (h5 : ∀ j, j < (P1 ++ bfA ++ buildEntries u_vb u_vr u_vmb u_vmr ++ P2 ++ frA ++ fileEntries u_vr u_vmr ++ P3 ++ grpA ++ groupEntry u_g u_vr u_vmr ++ P4 ++ FH ++ (rstrip in1 ++ childTail u_g) ++ closeParen ++ P5 ++ SH).length → (in2).isPrefixOf ((P1 ++ bfA ++ buildEntries u_vb u_vr u_vmb u_vmr ++ P2 ++ frA ++ fileEntries u_vr u_vmr ++ P3 ++ grpA ++ groupEntry u_g u_vr u_vmr ++ P4 ++ FH ++ (rstrip in1 ++ childTail u_g) ++ closeParen ++ P5 ++ SH ++ in2 ++ closeParen ++ P6).drop j) = false)
    (h5D : ∀ j, j < (closeParen ++ P6).length → (in2).isPrefixOf ((closeParen ++ P6).drop j) = false) :
    patchContent u_vr u_vmr u_vb u_vmb u_g (P1 ++ bfA ++ P2 ++ frA ++ P3 ++ grpA ++ P4 ++ FH ++ in1 ++ closeParen ++ P5 ++ SH ++ in2 ++ closeParen ++ P6) = P1 ++ bfA ++ buildEntries u_vb u_vr u_vmb u_vmr ++ P2 ++ frA ++ fileEntries u_vr u_vmr ++ P3 ++ grpA ++ groupEntry u_g u_vr u_vmr ++ P4 ++ FH ++ (rstrip in1 ++ childTail u_g) ++ closeParen ++ P5 ++ SH ++ (rstrip in2 ++ filesTail u_vb u_vmb) ++ closeParen ++ P6 :=
  patch_splice u_vr u_vmr u_vb u_vmb u_g P1 P2 P3 P4 FH in1 P5 SH in2 P6 fgu su
    h1 h2 hfe hch h3 h3D h4 hso hfi h5 h5D

set_option maxRecDepth 400000 in
set_option maxHeartbeats 12000000 in
/-- Leftmostness fact for the concrete witness manifests. -/
theorem wf1 : ∀ j, j < (cP1).length → (bfA).isPrefixOf ((cP1 ++ bfA ++ cP2 ++ frA ++ cP3 ++ grpA ++ cP4 ++ cFH ++ cIn1 ++ closeParen ++ cP5 ++ cSH ++ cIn2 ++ closeParen ++ cP6).drop j) = false :=
  noOccPre_spec bfA (by decide) (cP1) (cP1 ++ bfA ++ cP2 ++ frA ++ cP3 ++ grpA ++ cP4 ++ cFH ++ cIn1 ++ closeParen ++ cP5 ++ cSH ++ cIn2 ++ closeParen ++ cP6) (by decide)

set_option maxRecDepth 400000 in
set_option maxHeartbeats 12000000 in
/-- Leftmostness fact for the concrete witness manifests. -/
theorem wf2 : ∀ j, j < (cP1 ++ bfA ++ buildEntries cUvb cUvr cUvmb cUvmr ++ cP2).length → (frA).isPrefixOf ((cP1 ++ bfA ++ buildEntries cUvb cUvr cUvmb cUvmr ++ cP2 ++ frA ++ cP3 ++ grpA ++ cP4 ++ cFH ++ cIn1 ++ closeParen ++ cP5 ++ cSH ++ cIn2 ++ closeParen ++ cP6).drop j) = false :=
  noOccPre_spec frA (by decide) (cP1 ++ bfA ++ buildEntries cUvb cUvr cUvmb cUvmr ++ cP2) (cP1 ++ bfA ++ buildEntries cUvb cUvr cUvmb cUvmr ++ cP2 ++ frA ++ cP3 ++ grpA ++ cP4 ++ cFH ++ cIn1 ++ closeParen ++ cP5 ++ cSH ++ cIn2 ++ closeParen ++ cP6) (by decide)

set_option maxRecDepth 400000 in
set_option maxHeartbeats 12000000 in
/-- Search fact for the concrete witness manifests. -/
theorem wf3 : featuresSearch (cP1 ++ bfA ++ buildEntries cUvb cUvr cUvmb cUvmr ++ cP2 ++ frA ++ fileEntries cUvr cUvmr ++ cP3 ++ grpA ++ cP4 ++ cFH ++ cIn1 ++ closeParen ++ cP5 ++ cSH ++ cIn2 ++ closeParen ++ cP6) = some cFgu := by decide

set_option maxRecDepth 400000 in
set_option maxHeartbeats 12000000 in
/-- Search fact for the concrete witness manifests. -/
theorem wf4 : childrenSearch cFgu (cP1 ++ bfA ++ buildEntries cUvb cUvr cUvmb cUvmr ++ cP2 ++ frA ++ fileEntries cUvr cUvmr ++ cP3 ++ grpA ++ cP4 ++ cFH ++ cIn1 ++ closeParen ++ cP5 ++ cSH ++ cIn2 ++ closeParen ++ cP6) = some cIn1 := by decide

set_option maxRecDepth 400000 in
set_option maxHeartbeats 12000000 in
/-- Leftmostness fact for the concrete witness manifests. -/
theorem wf5 : ∀ j, j < (cP1 ++ bfA ++ buildEntries cUvb cUvr cUvmb cUvmr ++ cP2 ++ frA ++ fileEntries cUvr cUvmr ++ cP3 ++ grpA ++ cP4 ++ cFH).length → ((cIn1)).isPrefixOf ((cP1 ++ bfA ++ buildEntries cUvb cUvr cUvmb cUvmr ++ cP2 ++ frA ++ fileEntries cUvr cUvmr ++ cP3 ++ grpA ++ cP4 ++ cFH ++ cIn1 ++ closeParen ++ cP5 ++ cSH ++ cIn2 ++ closeParen ++ cP6).drop j) = false :=
  noOccPre_spec (cIn1) (by decide) (cP1 ++ bfA ++ buildEntries cUvb cUvr cUvmb cUvmr ++ cP2 ++ frA ++ fileEntries cUvr cUvmr ++ cP3 ++ grpA ++ cP4 ++ cFH) (cP1 ++ bfA ++ buildEntries cUvb cUvr cUvmb cUvmr ++ cP2 ++ frA ++ fileEntries cUvr cUvmr ++ cP3 ++ grpA ++ cP4 ++ cFH ++ cIn1 ++ closeParen ++ cP5 ++ cSH ++ cIn2 ++ closeParen ++ cP6) (by decide)

set_option maxRecDepth 400000 in
set_option maxHeartbeats 12000000 in
/-- Leftmostness fact for the concrete witness manifests. -/
theorem wf6 : ∀ j, j < (closeParen ++ cP5 ++ cSH ++ cIn2 ++ closeParen ++ cP6).length → ((cIn1)).isPrefixOf ((closeParen ++ cP5 ++ cSH ++ cIn2 ++ closeParen ++ cP6).drop j) = false :=
  noOccPre_spec (cIn1) (by decide) (closeParen ++ cP5 ++ cSH ++ cIn2 ++ closeParen ++ cP6) (closeParen ++ cP5 ++ cSH ++ cIn2 ++ closeParen ++ cP6) (by decide)

set_option maxRecDepth 400000 in
set_option maxHeartbeats 12000000 in
/-- Leftmostness fact for the concrete witness manifests. -/
theorem wf7 : ∀ j, j < (cP1 ++ bfA ++ buildEntries cUvb cUvr cUvmb cUvmr ++ cP2 ++ frA ++ fileEntries cUvr cUvmr ++ cP3).length → (grpA).isPrefixOf ((cP1 ++ bfA ++ buildEntries cUvb cUvr cUvmb cUvmr ++ cP2 ++ frA ++ fileEntries cUvr cUvmr ++ cP3 ++ grpA ++ cP4 ++ cFH ++ (rstrip cIn1 ++ childTail cUg) ++ closeParen ++ cP5 ++ cSH ++ cIn2 ++ closeParen ++ cP6).drop j) = false :=
  noOccPre_spec grpA (by decide) (cP1 ++ bfA ++ buildEntries cUvb cUvr cUvmb cUvmr ++ cP2 ++ frA ++ fileEntries cUvr cUvmr ++ cP3) (cP1 ++ bfA ++ buildEntries cUvb cUvr cUvmb cUvmr ++ cP2 ++ frA ++ fileEntries cUvr cUvmr ++ cP3 ++ grpA ++ cP4 ++ cFH ++ (rstrip cIn1 ++ childTail cUg) ++ closeParen ++ cP5 ++ cSH ++ cIn2 ++ closeParen ++ cP6) (by decide)

set_option maxRecDepth 400000 in
set_option maxHeartbeats 12000000 in
/-- Search fact for the concrete witness manifests. -/
theorem wf8 : sourcesSearch (cP1 ++ bfA ++ buildEntries cUvb cUvr cUvmb cUvmr ++ cP2 ++ frA ++ fileEntries cUvr cUvmr ++ cP3 ++ grpA ++ groupEntry cUg cUvr cUvmr ++ cP4 ++ cFH ++ (rstrip cIn1 ++ childTail cUg) ++ closeParen ++ cP5 ++ cSH ++ cIn2 ++ closeParen ++ cP6) = some cSu := by decide

set_option maxRecDepth 400000 in
set_option maxHeartbeats 12000000 in
/-- Search fact for the concrete witness manifests. -/
theorem wf9 : filesSearch cSu (cP1 ++ bfA ++ buildEntries cUvb cUvr cUvmb cUvmr ++ cP2 ++ frA ++ fileEntries cUvr cUvmr ++ cP3 ++ grpA ++ groupEntry cUg cUvr cUvmr ++ cP4 ++ cFH ++ (rstrip cIn1 ++ childTail cUg) ++ closeParen ++ cP5 ++ cSH ++ cIn2 ++ closeParen ++ cP6) = some cIn2 := by decide

set_option maxRecDepth 400000 in
set_option maxHeartbeats 12000000 in
/-- Leftmostness fact for the concrete witness manifests. -/
theorem wf10 : ∀ j, j < (cP1 ++ bfA ++ buildEntries cUvb cUvr cUvmb cUvmr ++ cP2 ++ frA ++ fileEntries cUvr cUvmr ++ cP3 ++ grpA ++ groupEntry cUg cUvr cUvmr ++ cP4 ++ cFH ++ (rstrip cIn1 ++ childTail cUg) ++ closeParen ++ cP5 ++ cSH).length → ((cIn2)).isPrefixOf ((cP1 ++ bfA ++ buildEntries cUvb cUvr cUvmb cUvmr ++ cP2 ++ frA ++ fileEntries cUvr cUvmr ++ cP3 ++ grpA ++ groupEntry cUg cUvr cUvmr ++ cP4 ++ cFH ++ (rstrip cIn1 ++ childTail cUg) ++ closeParen ++ cP5 ++ cSH ++ cIn2 ++ closeParen ++ cP6).drop j) = false :=
  noOccPre_spec (cIn2) (by decide) (cP1 ++ bfA ++ buildEntries cUvb cUvr cUvmb cUvmr ++ cP2 ++ frA ++ fileEntries cUvr cUvmr ++ cP3 ++ grpA ++ groupEntry cUg cUvr cUvmr ++ cP4 ++ cFH ++ (rstrip cIn1 ++ childTail cUg) ++ closeParen ++ cP5 ++ cSH) (cP1 ++ bfA ++ buildEntries cUvb cUvr cUvmb cUvmr ++ cP2 ++ frA ++ fileEntries cUvr cUvmr ++ cP3 ++ grpA ++ groupEntry cUg cUvr cUvmr ++ cP4 ++ cFH ++ (rstrip cIn1 ++ childTail cUg) ++ closeParen ++ cP5 ++ cSH ++ cIn2 ++ closeParen ++ cP6) (by decide)

set_option maxRecDepth 400000 in
set_option maxHeartbeats 12000000 in
/-- Leftmostness fact for the concrete witness manifests. -/
theorem wf11 : ∀ j, j < (closeParen ++ cP6).length → ((cIn2)).isPrefixOf ((closeParen ++ cP6).drop j) = false :=
  noOccPre_spec (cIn2) (by decide) (closeParen ++ cP6) (closeParen ++ cP6) (by decide)

set_option maxRecDepth 400000 in
set_option maxHeartbeats 12000000 in
/-- Witness for C1 at the concrete sample manifest. -/
theorem c1_witness :
    patchContent cUvr cUvmr cUvb cUvmb cUg (cP1 ++ bfA ++ cP2 ++ frA ++ cP3 ++ grpA ++ cP4 ++ cFH ++ cIn1 ++ closeParen ++ cP5 ++ cSH ++ cIn2 ++ closeParen ++ cP6) = cP1 ++ bfA ++ buildEntries cUvb cUvr cUvmb cUvmr ++ cP2 ++ frA ++ fileEntries cUvr cUvmr ++ cP3 ++ grpA ++ groupEntry cUg cUvr cUvmr ++ cP4 ++ cFH ++ (rstrip cIn1 ++ childTail cUg) ++ closeParen ++ cP5 ++ cSH ++ (rstrip cIn2 ++ filesTail cUvb cUvmb) ++ closeParen ++ cP6 :=
  c1_single_run_inserts_all cUvr cUvmr cUvb cUvmb cUg cP1 cP2 cP3 cP4 cFH cIn1 cP5 cSH cIn2 cP6 cFgu cSu
    wf1
    wf2
    wf3
    wf4
    wf5
    wf6
    wf7
    wf8
    wf9
    wf10
    wf11

/-- C5: `add_files_to_pbxproj` is not idempotent.  For a manifest exhibiting
the anchors, running the patch twice (with the fresh identifiers of each run
universally quantified) produces two independent sets of inserted entries:
the result contains the build-file, file-reference and group records of both
runs side by side -- duplicate registrations of the same two file names under
the two identifier sets -- and both appended members in the Features children
and both appended pairs in the Sources files listing, because no check for
already-present entries is performed. -/
theorem c5_not_idempotent
    (u_vr u_vmr u_vb u_vmb u_g v_vr v_vmr v_vb v_vmb v_g
      P1 P2 P3 P4 FH in1 P5 SH in2 P6 fgu su fgu2 su2 : L)
    (h1 : ∀ j, j < (P1).length → bfA.isPrefixOf ((P1 ++ bfA ++ P2 ++ frA ++ P3 ++ grpA ++ P4 ++ FH ++ in1 ++ closeParen ++ P5 ++ SH ++ in2 ++ closeParen ++ P6).drop j) = false)
    (h2 : ∀ j, j < (P1 ++ bfA ++ buildEntries u_vb u_vr u_vmb u_vmr ++ P2).length → frA.isPrefixOf ((P1 ++ bfA ++ buildEntries u_vb u_vr u_vmb u_vmr ++ P2 ++ frA ++ P3 ++ grpA ++ P4 ++ FH ++ in1 ++ closeParen ++ P5 ++ SH ++ in2 ++ closeParen ++ P6).drop j) = false)
    (hfe : featuresSearch (P1 ++ bfA ++ buildEntries u_vb u_vr u_vmb u_vmr ++ P2 ++ frA ++ fileEntries u_vr u_vmr ++ P3 ++ grpA ++ P4 ++ FH ++ in1 ++ closeParen ++ P5 ++ SH ++ in2 ++ closeParen ++ P6) = some fgu)
    (hch : childrenSearch fgu (P1 ++ bfA ++ buildEntries u_vb u_vr u_vmb u_vmr ++ P2 ++ frA ++ fileEntries u_vr u_vmr ++ P3 ++ grpA ++ P4 ++ FH ++ in1 ++ closeParen ++ P5 ++ SH ++ in2 ++ closeParen ++ P6) = some in1)
    (h3 : ∀ j, j < (P1 ++ bfA ++ buildEntries u_vb u_vr u_vmb u_vmr ++ P2 ++ frA ++ fileEntries u_vr u_vmr ++ P3 ++ grpA ++ P4 ++ FH).length → (in1).isPrefixOf ((P1 ++ bfA ++ buildEntries u_vb u_vr u_vmb u_vmr ++ P2 ++ frA ++ fileEntries u_vr u_vmr ++ P3 ++ grpA ++ P4 ++ FH ++ in1 ++ closeParen ++ P5 ++ SH ++ in2 ++ closeParen ++ P6).drop j) = false)
    (h3D : ∀ j, j < (closeParen ++ P5 ++ SH ++ in2 ++ closeParen ++ P6).length → (in1).isPrefixOf ((closeParen ++ P5 ++ SH ++ in2 ++ closeParen ++ P6).drop j) = false)
    (h4 : ∀ j, j < (P1 ++ bfA ++ buildEntries u_vb u_vr u_vmb u_vmr ++ P2 ++ frA ++ fileEntries u_vr u_vmr ++ P3).length → grpA.isPrefixOf ((P1 ++ bfA ++ buildEntries u_vb u_vr u_vmb u_vmr ++ P2 ++ frA ++ fileEntries u_vr u_vmr ++ P3 ++ grpA ++ P4 ++ FH ++ (rstrip in1 ++ childTail u_g) ++ closeParen ++ P5 ++ SH ++ in2 ++ closeParen ++ P6).drop j) = false)
    (hso : sourcesSearch (P1 ++ bfA ++ buildEntries u_vb u_vr u_vmb u_vmr ++ P2 ++ frA ++ fileEntries u_vr u_vmr ++ P3 ++ grpA ++ groupEntry u_g u_vr u_vmr ++ P4 ++ FH ++ (rstrip in1 ++ childTail u_g) ++ closeParen ++ P5 ++ SH ++ in2 ++ closeParen ++ P6) = some su)
    (hfi : filesSearch su (P1 ++ bfA ++ buildEntries u_vb u_vr u_vmb u_vmr ++ P2 ++ frA ++ fileEntries u_vr u_vmr ++ P3 ++ grpA ++ groupEntry u_g u_vr u_vmr ++ P4 ++ FH ++ (rstrip in1 ++ childTail u_g) ++ closeParen ++ P5 ++ SH ++ in2 ++ closeParen ++ P6) = some in2)
    (h5 : ∀ j, j < (P1 ++ bfA ++ buildEntries u_vb u_vr u_vmb u_vmr ++ P2 ++ frA ++ fileEntries u_vr u_vmr ++ P3 ++ grpA ++ groupEntry u_g u_vr u_vmr ++ P4 ++ FH ++ (rstrip in1 ++ childTail u_g) ++ closeParen ++ P5 ++ SH).length → (in2).isPrefixOf ((P1 ++ bfA ++ buildEntries u_vb u_vr u_vmb u_vmr ++ P2 ++ frA ++ fileEntries u_vr u_vmr ++ P3 ++ grpA ++ groupEntry u_g u_vr u_vmr ++ P4 ++ FH ++ (rstrip in1 ++ childTail u_g) ++ closeParen ++ P5 ++ SH ++ in2 ++ closeParen ++ P6).drop j) = false)
    (h5D : ∀ j, j < (closeParen ++ P6).length → (in2).isPrefixOf ((closeParen ++ P6).drop j) = false)
    (g1 : ∀ j, j < (P1).length → bfA.isPrefixOf ((P1 ++ bfA ++ (buildEntries u_vb u_vr u_vmb u_vmr ++ P2) ++ frA ++ (fileEntries u_vr u_vmr ++ P3) ++ grpA ++ (groupEntry u_g u_vr u_vmr ++ P4) ++ FH ++ (rstrip in1 ++ childTail u_g) ++ closeParen ++ P5 ++ SH ++ (rstrip in2 ++ filesTail u_vb u_vmb) ++ closeParen ++ P6).drop j) = false)
    (g2 : ∀ j, j < (P1 ++ bfA ++ buildEntries v_vb v_vr v_vmb v_vmr ++ (buildEntries u_vb u_vr u_vmb u_vmr ++ P2)).length → frA.isPrefixOf ((P1 ++ bfA ++ buildEntries v_vb v_vr v_vmb v_vmr ++ (buildEntries u_vb u_vr u_vmb u_vmr ++ P2) ++ frA ++ (fileEntries u_vr u_vmr ++ P3) ++ grpA ++ (groupEntry u_g u_vr u_vmr ++ P4) ++ FH ++ (rstrip in1 ++ childTail u_g) ++ closeParen ++ P5 ++ SH ++ (rstrip in2 ++ filesTail u_vb u_vmb) ++ closeParen ++ P6).drop j) = false)
    (gfe : featuresSearch (P1 ++ bfA ++ buildEntries v_vb v_vr v_vmb v_vmr ++ (buildEntries u_vb u_vr u_vmb u_vmr ++ P2) ++ frA ++ fileEntries v_vr v_vmr ++ (fileEntries u_vr u_vmr ++ P3) ++ grpA ++ (groupEntry u_g u_vr u_vmr ++ P4) ++ FH ++ (rstrip in1 ++ childTail u_g) ++ closeParen ++ P5 ++ SH ++ (rstrip in2 ++ filesTail u_vb u_vmb) ++ closeParen ++ P6) = some fgu2)
    (gch : childrenSearch fgu2 (P1 ++ bfA ++ buildEntries v_vb v_vr v_vmb v_vmr ++ (buildEntries u_vb u_vr u_vmb u_vmr ++ P2) ++ frA ++ fileEntries v_vr v_vmr ++ (fileEntries u_vr u_vmr ++ P3) ++ grpA ++ (groupEntry u_g u_vr u_vmr ++ P4) ++ FH ++ (rstrip in1 ++ childTail u_g) ++ closeParen ++ P5 ++ SH ++ (rstrip in2 ++ filesTail u_vb u_vmb) ++ closeParen ++ P6) = some (rstrip in1 ++ childTail u_g))
    (g3 : ∀ j, j < (P1 ++ bfA ++ buildEntries v_vb v_vr v_vmb v_vmr ++ (buildEntries u_vb u_vr u_vmb u_vmr ++ P2) ++ frA ++ fileEntries v_vr v_vmr ++ (fileEntries u_vr u_vmr ++ P3) ++ grpA ++ (groupEntry u_g u_vr u_vmr ++ P4) ++ FH).length → ((rstrip in1 ++ childTail u_g)).isPrefixOf ((P1 ++ bfA ++ buildEntries v_vb v_vr v_vmb v_vmr ++ (buildEntries u_vb u_vr u_vmb u_vmr ++ P2) ++ frA ++ fileEntries v_vr v_vmr ++ (fileEntries u_vr u_vmr ++ P3) ++ grpA ++ (groupEntry u_g u_vr u_vmr ++ P4) ++ FH ++ (rstrip in1 ++ childTail u_g) ++ closeParen ++ P5 ++ SH ++ (rstrip in2 ++ filesTail u_vb u_vmb) ++ closeParen ++ P6).drop j) = false)
    (g3D : ∀ j, j < (closeParen ++ P5 ++ SH ++ (rstrip in2 ++ filesTail u_vb u_vmb) ++ closeParen ++ P6).length → ((rstrip in1 ++ childTail u_g)).isPrefixOf ((closeParen ++ P5 ++ SH ++ (rstrip in2 ++ filesTail u_vb u_vmb) ++ closeParen ++ P6).drop j) = false)
    (g4 : ∀ j, j < (P1 ++ bfA ++ buildEntries v_vb v_vr v_vmb v_vmr ++ (buildEntries u_vb u_vr u_vmb u_vmr ++ P2) ++ frA ++ fileEntries v_vr v_vmr ++ (fileEntries u_vr u_vmr ++ P3)).length → grpA.isPrefixOf ((P1 ++ bfA ++ buildEntries v_vb v_vr v_vmb v_vmr ++ (buildEntries u_vb u_vr u_vmb u_vmr ++ P2) ++ frA ++ fileEntries v_vr v_vmr ++ (fileEntries u_vr u_vmr ++ P3) ++ grpA ++ (groupEntry u_g u_vr u_vmr ++ P4) ++ FH ++ (rstrip (rstrip in1 ++ childTail u_g) ++ childTail v_g) ++ closeParen ++ P5 ++ SH ++ (rstrip in2 ++ filesTail u_vb u_vmb) ++ closeParen ++ P6).drop j) = false)
    (gso : sourcesSearch (P1 ++ bfA ++ buildEntries v_vb v_vr v_vmb v_vmr ++ (buildEntries u_vb u_vr u_vmb u_vmr ++ P2) ++ frA ++ fileEntries v_vr v_vmr ++ (fileEntries u_vr u_vmr ++ P3) ++ grpA ++ groupEntry v_g v_vr v_vmr ++ (groupEntry u_g u_vr u_vmr ++ P4) ++ FH ++ (rstrip (rstrip in1 ++ childTail u_g) ++ childTail v_g) ++ closeParen ++ P5 ++ SH ++ (rstrip in2 ++ filesTail u_vb u_vmb) ++ closeParen ++ P6) = some su2)
    (gfi : filesSearch su2 (P1 ++ bfA ++ buildEntries v_vb v_vr v_vmb v_vmr ++ (buildEntries u_vb u_vr u_vmb u_vmr ++ P2) ++ frA ++ fileEntries v_vr v_vmr ++ (fileEntries u_vr u_vmr ++ P3) ++ grpA ++ groupEntry v_g v_vr v_vmr ++ (groupEntry u_g u_vr u_vmr ++ P4) ++ FH ++ (rstrip (rstrip in1 ++ childTail u_g) ++ childTail v_g) ++ closeParen ++ P5 ++ SH ++ (rstrip in2 ++ filesTail u_vb u_vmb) ++ closeParen ++ P6) = some (rstrip in2 ++ filesTail u_vb u_vmb))
    (g5 : ∀ j, j < (P1 ++ bfA ++ buildEntries v_vb v_vr v_vmb v_vmr ++ (buildEntries u_vb u_vr u_vmb u_vmr ++ P2) ++ frA ++ fileEntries v_vr v_vmr ++ (fileEntries u_vr u_vmr ++ P3) ++ grpA ++ groupEntry v_g v_vr v_vmr ++ (groupEntry u_g u_vr u_vmr ++ P4) ++ FH ++ (rstrip (rstrip in1 ++ childTail u_g) ++ childTail v_g) ++ closeParen ++ P5 ++ SH).length → ((rstrip in2 ++ filesTail u_vb u_vmb)).isPrefixOf ((P1 ++ bfA ++ buildEntries v_vb v_vr v_vmb v_vmr ++ (buildEntries u_vb u_vr u_vmb u_vmr ++ P2) ++ frA ++ fileEntries v_vr v_vmr ++ (fileEntries u_vr u_vmr ++ P3) ++ grpA ++ groupEntry v_g v_vr v_vmr ++ (groupEntry u_g u_vr u_vmr ++ P4) ++ FH ++ (rstrip (rstrip in1 ++ childTail u_g) ++ childTail v_g) ++ closeParen ++ P5 ++ SH ++ (rstrip in2 ++ filesTail u_vb u_vmb) ++ closeParen ++ P6).drop j) = false)
    (g5D : ∀ j, j < (closeParen ++ P6).length → ((rstrip in2 ++ filesTail u_vb u_vmb)).isPrefixOf ((closeParen ++ P6).drop j) = false) :
    patchContent v_vr v_vmr v_vb v_vmb v_g
      (patchContent u_vr u_vmr u_vb u_vmb u_g (P1 ++ bfA ++ P2 ++ frA ++ P3 ++ grpA ++ P4 ++ FH ++ in1 ++ closeParen ++ P5 ++ SH ++ in2 ++ closeParen ++ P6)) =
    P1 ++ bfA ++ buildEntries v_vb v_vr v_vmb v_vmr ++ buildEntries u_vb u_vr u_vmb u_vmr ++ P2 ++ frA ++ fileEntries v_vr v_vmr ++ fileEntries u_vr u_vmr ++ P3 ++ grpA ++ groupEntry v_g v_vr v_vmr ++ groupEntry u_g u_vr u_vmr ++ P4 ++ FH ++ (rstrip in1 ++ childTail u_g ++ childTail v_g) ++ closeParen ++ P5 ++ SH ++ (rstrip in2 ++ filesTail u_vb u_vmb ++ filesTail v_vb v_vmb) ++ closeParen ++ P6 := by
  rw [patch_splice u_vr u_vmr u_vb u_vmb u_g P1 P2 P3 P4 FH in1 P5 SH in2 P6 fgu su
    h1 h2 hfe hch h3 h3D h4 hso hfi h5 h5D]
  rw [show (P1 ++ bfA ++ buildEntries u_vb u_vr u_vmb u_vmr ++ P2 ++ frA ++ fileEntries u_vr u_vmr ++ P3 ++ grpA ++ groupEntry u_g u_vr u_vmr ++ P4 ++ FH ++ (rstrip in1 ++ childTail u_g) ++ closeParen ++ P5 ++ SH ++ (rstrip in2 ++ filesTail u_vb u_vmb) ++ closeParen ++ P6) = (P1 ++ bfA ++ (buildEntries u_vb u_vr u_vmb u_vmr ++ P2) ++ frA ++ (fileEntries u_vr u_vmr ++ P3) ++ grpA ++ (groupEntry u_g u_vr u_vmr ++ P4) ++ FH ++ (rstrip in1 ++ childTail u_g) ++ closeParen ++ P5 ++ SH ++ (rstrip in2 ++ filesTail u_vb u_vmb) ++ closeParen ++ P6) from by simp only [List.append_assoc]]
  rw [patch_splice v_vr v_vmr v_vb v_vmb v_g P1 (buildEntries u_vb u_vr u_vmb u_vmr ++ P2) (fileEntries u_vr u_vmr ++ P3) (groupEntry u_g u_vr u_vmr ++ P4)
    FH (rstrip in1 ++ childTail u_g) P5 SH (rstrip in2 ++ filesTail u_vb u_vmb) P6 fgu2 su2 g1 g2 gfe gch g3 g3D g4 gso gfi g5 g5D]
  rw [rstrip_append_childTail (rstrip in1) u_g, rstrip_append_filesTail (rstrip in2) u_vb u_vmb]
  simp only [List.append_assoc]

set_option maxRecDepth 400000 in
set_option maxHeartbeats 12000000 in
/-- Leftmostness fact for the concrete witness manifests. -/
theorem wf12 : ∀ j, j < (cP1).length → (bfA).isPrefixOf ((cP1 ++ bfA ++ (buildEntries cUvb cUvr cUvmb cUvmr ++ cP2) ++ frA ++ (fileEntries cUvr cUvmr ++ cP3) ++ grpA ++ (groupEntry cUg cUvr cUvmr ++ cP4) ++ cFH ++ (rstrip cIn1 ++ childTail cUg) ++ closeParen ++ cP5 ++ cSH ++ (rstrip cIn2 ++ filesTail cUvb cUvmb) ++ closeParen ++ cP6).drop j) = false :=
  noOccPre_spec bfA (by decide) (cP1) (cP1 ++ bfA ++ (buildEntries cUvb cUvr cUvmb cUvmr ++ cP2) ++ frA ++ (fileEntries cUvr cUvmr ++ cP3) ++ grpA ++ (groupEntry cUg cUvr cUvmr ++ cP4) ++ cFH ++ (rstrip cIn1 ++ childTail cUg) ++ closeParen ++ cP5 ++ cSH ++ (rstrip cIn2 ++ filesTail cUvb cUvmb) ++ closeParen ++ cP6) (by decide)

set_option maxRecDepth 400000 in
set_option maxHeartbeats 12000000 in
/-- Leftmostness fact for the concrete witness manifests. -/
theorem wf13 : ∀ j, j < (cP1 ++ bfA ++ buildEntries cVvb cVvr cVvmb cVvmr ++ (buildEntries cUvb cUvr cUvmb cUvmr ++ cP2)).length → (frA).isPrefixOf ((cP1 ++ bfA ++ buildEntries cVvb cVvr cVvmb cVvmr ++ (buildEntries cUvb cUvr cUvmb cUvmr ++ cP2) ++ frA ++ (fileEntries cUvr cUvmr ++ cP3) ++ grpA ++ (groupEntry cUg cUvr cUvmr ++ cP4) ++ cFH ++ (rstrip cIn1 ++ childTail cUg) ++ closeParen ++ cP5 ++ cSH ++ (rstrip cIn2 ++ filesTail cUvb cUvmb) ++ closeParen ++ cP6).drop j) = false :=
  noOccPre_spec frA (by decide) (cP1 ++ bfA ++ buildEntries cVvb cVvr cVvmb cVvmr ++ (buildEntries cUvb cUvr cUvmb cUvmr ++ cP2)) (cP1 ++ bfA ++ buildEntries cVvb cVvr cVvmb cVvmr ++ (buildEntries cUvb cUvr cUvmb cUvmr ++ cP2) ++ frA ++ (fileEntries cUvr cUvmr ++ cP3) ++ grpA ++ (groupEntry cUg cUvr cUvmr ++ cP4) ++ cFH ++ (rstrip cIn1 ++ childTail cUg) ++ closeParen ++ cP5 ++ cSH ++ (rstrip cIn2 ++ filesTail cUvb cUvmb) ++ closeParen ++ cP6) (by decide)

set_option maxRecDepth 400000 in
set_option maxHeartbeats 12000000 in
/-- Search fact for the concrete witness manifests. -/
theorem wf14 : featuresSearch (cP1 ++ bfA ++ buildEntries cVvb cVvr cVvmb cVvmr ++ (buildEntries cUvb cUvr cUvmb cUvmr ++ cP2) ++ frA ++ fileEntries cVvr cVvmr ++ (fileEntries cUvr cUvmr ++ cP3) ++ grpA ++ (groupEntry cUg cUvr cUvmr ++ cP4) ++ cFH ++ (rstrip cIn1 ++ childTail cUg) ++ closeParen ++ cP5 ++ cSH ++ (rstrip cIn2 ++ filesTail cUvb cUvmb) ++ closeParen ++ cP6) = some cFgu := by decide

set_option maxRecDepth 400000 in
set_option maxHeartbeats 12000000 in
/-- Search fact for the concrete witness manifests. -/
theorem wf15 : childrenSearch cFgu (cP1 ++ bfA ++ buildEntries cVvb cVvr cVvmb cVvmr ++ (buildEntries cUvb cUvr cUvmb cUvmr ++ cP2) ++ frA ++ fileEntries cVvr cVvmr ++ (fileEntries cUvr cUvmr ++ cP3) ++ grpA ++ (groupEntry cUg cUvr cUvmr ++ cP4) ++ cFH ++ (rstrip cIn1 ++ childTail cUg) ++ closeParen ++ cP5 ++ cSH ++ (rstrip cIn2 ++ filesTail cUvb cUvmb) ++ closeParen ++ cP6) = some (rstrip cIn1 ++ childTail cUg) := by decide

set_option maxRecDepth 400000 in
set_option maxHeartbeats 12000000 in
/-- Leftmostness fact for the concrete witness manifests. -/
theorem wf16 : ∀ j, j < (cP1 ++ bfA ++ buildEntries cVvb cVvr cVvmb cVvmr ++ (buildEntries cUvb cUvr cUvmb cUvmr ++ cP2) ++ frA ++ fileEntries cVvr cVvmr ++ (fileEntries cUvr cUvmr ++ cP3) ++ grpA ++ (groupEntry cUg cUvr cUvmr ++ cP4) ++ cFH).length → (((rstrip cIn1 ++ childTail cUg))).isPrefixOf ((cP1 ++ bfA ++ buildEntries cVvb cVvr cVvmb cVvmr ++ (buildEntries cUvb cUvr cUvmb cUvmr ++ cP2) ++ frA ++ fileEntries cVvr cVvmr ++ (fileEntries cUvr cUvmr ++ cP3) ++ grpA ++ (groupEntry cUg cUvr cUvmr ++ cP4) ++ cFH ++ (rstrip cIn1 ++ childTail cUg) ++ closeParen ++ cP5 ++ cSH ++ (rstrip cIn2 ++ filesTail cUvb cUvmb) ++ closeParen ++ cP6).drop j) = false :=
  noOccPre_spec ((rstrip cIn1 ++ childTail cUg)) (by decide) (cP1 ++ bfA ++ buildEntries cVvb cVvr cVvmb cVvmr ++ (buildEntries cUvb cUvr cUvmb cUvmr ++ cP2) ++ frA ++ fileEntries cVvr cVvmr ++ (fileEntries cUvr cUvmr ++ cP3) ++ grpA ++ (groupEntry cUg cUvr cUvmr ++ cP4) ++ cFH) (cP1 ++ bfA ++ buildEntries cVvb cVvr cVvmb cVvmr ++ (buildEntries cUvb cUvr cUvmb cUvmr ++ cP2) ++ frA ++ fileEntries cVvr cVvmr ++ (fileEntries cUvr cUvmr ++ cP3) ++ grpA ++ (groupEntry cUg cUvr cUvmr ++ cP4) ++ cFH ++ (rstrip cIn1 ++ childTail cUg) ++ closeParen ++ cP5 ++ cSH ++ (rstrip cIn2 ++ filesTail cUvb cUvmb) ++ closeParen ++ cP6) (by decide)

set_option maxRecDepth 400000 in
set_option maxHeartbeats 12000000 in
/-- Leftmostness fact for the concrete witness manifests. -/
theorem wf17 : ∀ j, j < (closeParen ++ cP5 ++ cSH ++ (rstrip cIn2 ++ filesTail cUvb cUvmb) ++ closeParen ++ cP6).length → (((rstrip cIn1 ++ childTail cUg))).isPrefixOf ((closeParen ++ cP5 ++ cSH ++ (rstrip cIn2 ++ filesTail cUvb cUvmb) ++ closeParen ++ cP6).drop j) = false :=
  noOccPre_spec ((rstrip cIn1 ++ childTail cUg)) (by decide) (closeParen ++ cP5 ++ cSH ++ (rstrip cIn2 ++ filesTail cUvb cUvmb) ++ closeParen ++ cP6) (closeParen ++ cP5 ++ cSH ++ (rstrip cIn2 ++ filesTail cUvb cUvmb) ++ closeParen ++ cP6) (by decide)

set_option maxRecDepth 400000 in
set_option maxHeartbeats 12000000 in
/-- Leftmostness fact for the concrete witness manifests. -/
theorem wf18 : ∀ j, j < (cP1 ++ bfA ++ buildEntries cVvb cVvr cVvmb cVvmr ++ (buildEntries cUvb cUvr cUvmb cUvmr ++ cP2) ++ frA ++ fileEntries cVvr cVvmr ++ (fileEntries cUvr cUvmr ++ cP3)).length → (grpA).isPrefixOf ((cP1 ++ bfA ++ buildEntries cVvb cVvr cVvmb cVvmr ++ (buildEntries cUvb cUvr cUvmb cUvmr ++ cP2) ++ frA ++ fileEntries cVvr cVvmr ++ (fileEntries cUvr cUvmr ++ cP3) ++ grpA ++ (groupEntry cUg cUvr cUvmr ++ cP4) ++ cFH ++ (rstrip (rstrip cIn1 ++ childTail cUg) ++ childTail cVg) ++ closeParen ++ cP5 ++ cSH ++ (rstrip cIn2 ++ filesTail cUvb cUvmb) ++ closeParen ++ cP6).drop j) = false :=
  noOccPre_spec grpA (by decide) (cP1 ++ bfA ++ buildEntries cVvb cVvr cVvmb cVvmr ++ (buildEntries cUvb cUvr cUvmb cUvmr ++ cP2) ++ frA ++ fileEntries cVvr cVvmr ++ (fileEntries cUvr cUvmr ++ cP3)) (cP1 ++ bfA ++ buildEntries cVvb cVvr cVvmb cVvmr ++ (buildEntries cUvb cUvr cUvmb cUvmr ++ cP2) ++ frA ++ fileEntries cVvr cVvmr ++ (fileEntries cUvr cUvmr ++ cP3) ++ grpA ++ (groupEntry cUg cUvr cUvmr ++ cP4) ++ cFH ++ (rstrip (rstrip cIn1 ++ childTail cUg) ++ childTail cVg) ++ closeParen ++ cP5 ++ cSH ++ (rstrip cIn2 ++ filesTail cUvb cUvmb) ++ closeParen ++ cP6) (by decide)

set_option maxRecDepth 400000 in
set_option maxHeartbeats 12000000 in
/-- Search fact for the concrete witness manifests. -/
theorem wf19 : sourcesSearch (cP1 ++ bfA ++ buildEntries cVvb cVvr cVvmb cVvmr ++ (buildEntries cUvb cUvr cUvmb cUvmr ++ cP2) ++ frA ++ fileEntries cVvr cVvmr ++ (fileEntries cUvr cUvmr ++ cP3) ++ grpA ++ groupEntry cVg cVvr cVvmr ++ (groupEntry cUg cUvr cUvmr ++ cP4) ++ cFH ++ (rstrip (rstrip cIn1 ++ childTail cUg) ++ childTail cVg) ++ closeParen ++ cP5 ++ cSH ++ (rstrip cIn2 ++ filesTail cUvb cUvmb) ++ closeParen ++ cP6) = some cSu := by decide

set_option maxRecDepth 400000 in
set_option maxHeartbeats 12000000 in
/-- Search fact for the concrete witness manifests. -/
theorem wf20 : filesSearch cSu (cP1 ++ bfA ++ buildEntries cVvb cVvr cVvmb cVvmr ++ (buildEntries cUvb cUvr cUvmb cUvmr ++ cP2) ++ frA ++ fileEntries cVvr cVvmr ++ (fileEntries cUvr cUvmr ++ cP3) ++ grpA ++ groupEntry cVg cVvr cVvmr ++ (groupEntry cUg cUvr cUvmr ++ cP4) ++ cFH ++ (rstrip (rstrip cIn1 ++ childTail cUg) ++ childTail cVg) ++ closeParen ++ cP5 ++ cSH ++ (rstrip cIn2 ++ filesTail cUvb cUvmb) ++ closeParen ++ cP6) = some (rstrip cIn2 ++ filesTail cUvb cUvmb) := by decide

set_option maxRecDepth 400000 in
set_option maxHeartbeats 12000000 in
/-- Leftmostness fact for the concrete witness manifests. -/
theorem wf21 : ∀ j, j < (cP1 ++ bfA ++ buildEntries cVvb cVvr cVvmb cVvmr ++ (buildEntries cUvb cUvr cUvmb cUvmr ++ cP2) ++ frA ++ fileEntries cVvr cVvmr ++ (fileEntries cUvr cUvmr ++ cP3) ++ grpA ++ groupEntry cVg cVvr cVvmr ++ (groupEntry cUg cUvr cUvmr ++ cP4) ++ cFH ++ (rstrip (rstrip cIn1 ++ childTail cUg) ++ childTail cVg) ++ closeParen ++ cP5 ++ cSH).length → (((rstrip cIn2 ++ filesTail cUvb cUvmb))).isPrefixOf ((cP1 ++ bfA ++ buildEntries cVvb cVvr cVvmb cVvmr ++ (buildEntries cUvb cUvr cUvmb cUvmr ++ cP2) ++ frA ++ fileEntries cVvr cVvmr ++ (fileEntries cUvr cUvmr ++ cP3) ++ grpA ++ groupEntry cVg cVvr cVvmr ++ (groupEntry cUg cUvr cUvmr ++ cP4) ++ cFH ++ (rstrip (rstrip cIn1 ++ childTail cUg) ++ childTail cVg) ++ closeParen ++ cP5 ++ cSH ++ (rstrip cIn2 ++ filesTail cUvb cUvmb) ++ closeParen ++ cP6).drop j) = false :=
  noOccPre_spec ((rstrip cIn2 ++ filesTail cUvb cUvmb)) (by decide) (cP1 ++ bfA ++ buildEntries cVvb cVvr cVvmb cVvmr ++ (buildEntries cUvb cUvr cUvmb cUvmr ++ cP2) ++ frA ++ fileEntries cVvr cVvmr ++ (fileEntries cUvr cUvmr ++ cP3) ++ grpA ++ groupEntry cVg cVvr cVvmr ++ (groupEntry cUg cUvr cUvmr ++ cP4) ++ cFH ++ (rstrip (rstrip cIn1 ++ childTail cUg) ++ childTail cVg) ++ closeParen ++ cP5 ++ cSH) (cP1 ++ bfA ++ buildEntries cVvb cVvr cVvmb cVvmr ++ (buildEntries cUvb cUvr cUvmb cUvmr ++ cP2) ++ frA ++ fileEntries cVvr cVvmr ++ (fileEntries cUvr cUvmr ++ cP3) ++ grpA ++ groupEntry cVg cVvr cVvmr ++ (groupEntry cUg cUvr cUvmr ++ cP4) ++ cFH ++ (rstrip (rstrip cIn1 ++ childTail cUg) ++ childTail cVg) ++ closeParen ++ cP5 ++ cSH ++ (rstrip cIn2 ++ filesTail cUvb cUvmb) ++ closeParen ++ cP6) (by decide)

set_option maxRecDepth 400000 in
set_option maxHeartbeats 12000000 in
/-- Leftmostness fact for the concrete witness manifests. -/
theorem wf22 : ∀ j, j < (closeParen ++ cP6).length → (((rstrip cIn2 ++ filesTail cUvb cUvmb))).isPrefixOf ((closeParen ++ cP6).drop j) = false :=
  noOccPre_spec ((rstrip cIn2 ++ filesTail cUvb cUvmb)) (by decide) (closeParen ++ cP6) (closeParen ++ cP6) (by decide)

set_option maxRecDepth 400000 in
set_option maxHeartbeats 12000000 in
/-- Witness for C5 at the concrete sample manifest. -/
theorem c5_witness :
    patchContent cVvr cVvmr cVvb cVvmb cVg
      (patchContent cUvr cUvmr cUvb cUvmb cUg (cP1 ++ bfA ++ cP2 ++ frA ++ cP3 ++ grpA ++ cP4 ++ cFH ++ cIn1 ++ closeParen ++ cP5 ++ cSH ++ cIn2 ++ closeParen ++ cP6)) =
    cP1 ++ bfA ++ buildEntries cVvb cVvr cVvmb cVvmr ++ buildEntries cUvb cUvr cUvmb cUvmr ++ cP2 ++ frA ++ fileEntries cVvr cVvmr ++ fileEntries cUvr cUvmr ++ cP3 ++ grpA ++ groupEntry cVg cVvr cVvmr ++ groupEntry cUg cUvr cUvmr ++ cP4 ++ cFH ++ (rstrip cIn1 ++ childTail cUg ++ childTail cVg) ++ closeParen ++ cP5 ++ cSH ++ (rstrip cIn2 ++ filesTail cUvb cUvmb ++ filesTail cVvb cVvmb) ++ closeParen ++ cP6 :=
  c5_not_idempotent cUvr cUvmr cUvb cUvmb cUg cVvr cVvmr cVvb cVvmb cVg
    cP1 cP2 cP3 cP4 cFH cIn1 cP5 cSH cIn2 cP6 cFgu cSu cFgu cSu
    wf1
    wf2
    wf3
    wf4
    wf5
    wf6
    wf7
    wf8
    wf9
    wf10
    wf11
    wf12
    wf13
    wf14
    wf15
    wf16
    wf17
    wf18
    wf19
    wf20
    wf21
    wf22

/-- A guarded insertion with a found anchor splices at the match end. -/
theorem stepInsert_hit (anchor block s : L) (p : Nat) (hp : substrPos anchor s = some p) :
    stepInsert anchor block s = s.take (p + anchor.length) ++ block ++ s.drop (p + anchor.length) := by
  unfold stepInsert
  simp only [hp]

/-- C7: a manifest in which none of the anchor patterns matches is written
back byte-identical: with zero anchors every step is a no-op and the output
content equals the input content. -/
theorem c7_no_anchors_identity (u_vr u_vmr u_vb u_vmb u_g s : L)
    (h1 : substrPos bfA s = none) (h2 : substrPos frA s = none)
    (h3 : featuresSearch s = none) (h4 : substrPos grpA s = none)
    (h5 : sourcesSearch s = none) :
    patchContent u_vr u_vmr u_vb u_vmb u_g s = s := by
  unfold patchContent
  rw [show step_build u_vb u_vr u_vmb u_vmr s = s from by
    unfold step_build
    exact stepInsert_skip _ _ _ h1]
  rw [show step_fileref u_vr u_vmr s = s from by
    unfold step_fileref
    exact stepInsert_skip _ _ _ h2]
  rw [step_features_none u_g s h3]
  rw [show step_group u_g u_vr u_vmr s = s from by
    unfold step_group
    exact stepInsert_skip _ _ _ h4]
  exact step_sources_none u_vb u_vmb s h5

/-- Witness for C7 on a manifest with no anchors at all. -/
theorem c7_witness :
    patchContent cUvr cUvmr cUvb cUvmb cUg cNoAnchor = cNoAnchor :=
  c7_no_anchors_identity cUvr cUvmr cUvb cUvmb cUg cNoAnchor
    (by decide) (by decide) (by decide) (by decide) (by decide)

/-- C8 (corrected): every run emits exactly four lines -- three progress
lines printing the view file-reference, viewmodel file-reference and group
identifiers, plus the checkmark confirmation -- and this output does not
depend on the manifest content or on which patch steps applied. -/
theorem c8_run_output (content d1 d2 d3 d4 d5 : L) :
    (add_files_to_pbxproj content d1 d2 d3 d4 d5).output =
      outputLines (generate_xcode_uuid d1) (generate_xcode_uuid d2)
        (generate_xcode_uuid d5) ∧
    (add_files_to_pbxproj content d1 d2 d3 d4 d5).output.length = 4 :=
  ⟨rfl, rfl⟩

/-- Counterexample for C8 as stated: a run emits 4 lines, not the claimed
five progress lines plus a checkmark (which would be 6). -/
theorem c8_not_five_progress_lines :
    (add_files_to_pbxproj "x".data cDraw cDraw cDraw cDraw cDraw).output.length = 4 ∧
    (add_files_to_pbxproj "x".data cDraw cDraw cDraw cDraw cDraw).output.length ≠ 6 :=
  ⟨rfl, by decide⟩

/-- C2 (corrected): one run generates exactly five identifiers, in the order
view file ref, viewmodel file ref, view build file, viewmodel build file,
group, each `uuid4().hex.upper()[:24]` of its own draw; each identifier of a
valid draw is a 24-character uppercase-hex string; and two identifiers are
distinct provided their draws differ somewhere in the first 24 hex digits --
mutual distinctness of the five is not checked by the code and fails when
draws collide on the kept digits. -/
theorem c2_identifier_generation (content d1 d2 d3 d4 d5 : L) :
    (add_files_to_pbxproj content d1 d2 d3 d4 d5 =
      { content := patchContent (generate_xcode_uuid d1) (generate_xcode_uuid d2)
          (generate_xcode_uuid d3) (generate_xcode_uuid d4) (generate_xcode_uuid d5) content,
        output := outputLines (generate_xcode_uuid d1) (generate_xcode_uuid d2)
          (generate_xcode_uuid d5) }) ∧
    (∀ d : L, validUuid4Hex d →
      (generate_xcode_uuid d).length = 24 ∧ ∀ c ∈ generate_xcode_uuid d, isHexUp c = true) ∧
    (∀ d e : L, validUuid4Hex d → validUuid4Hex e → d.take 24 ≠ e.take 24 →
      generate_xcode_uuid d ≠ generate_xcode_uuid e) := by
  refine ⟨rfl, fun d hd => ⟨gen_length hd.1, gen_all_hex hd.2.1⟩, ?_⟩
  intro d e hd he hne
  exact gen_ne_of_take_ne hd.2.1 he.2.1 hne

/-- Witness for C2 at concrete draws. -/
theorem c2_witness :
    (generate_xcode_uuid cDraw).length = 24 ∧
    generate_xcode_uuid cDraw ≠ generate_xcode_uuid ("bbbbbbbbbbbb4bbb8bbbbbbbbbbbbbbb".data) := by
  refine ⟨((c2_identifier_generation [] cDraw cDraw cDraw cDraw cDraw).2.1 cDraw ?_).1, ?_⟩
  · exact ⟨by decide, by decide, by decide, by decide⟩
  · exact (c2_identifier_generation [] cDraw cDraw cDraw cDraw cDraw).2.2 cDraw
      ("bbbbbbbbbbbb4bbb8bbbbbbbbbbbbbbb".data)
      ⟨by decide, by decide, by decide, by decide⟩
      ⟨by decide, by decide, by decide, by decide⟩ (by decide)

/-- Counterexample for C2 as stated: two different, perfectly valid
`uuid4().hex` draws that agree on their first 24 digits produce the same
identifier, so a run using them prints the view and viewmodel file-reference
identifiers as the same string -- the five identifiers of a run need not be
mutually distinct. -/
theorem c2_collision :
    cDraw ≠ cDraw2 ∧ validUuid4Hex cDraw ∧ validUuid4Hex cDraw2 ∧
    generate_xcode_uuid cDraw = generate_xcode_uuid cDraw2 ∧
    (add_files_to_pbxproj "x".data cDraw cDraw2 cDraw cDraw cDraw).output =
      outputLines (generate_xcode_uuid cDraw) (generate_xcode_uuid cDraw)
        (generate_xcode_uuid cDraw) := by
  refine ⟨by decide, ⟨by decide, by decide, by decide, by decide⟩,
    ⟨by decide, by decide, by decide, by decide⟩, by decide, ?_⟩
  show outputLines (generate_xcode_uuid cDraw) (generate_xcode_uuid cDraw2)
      (generate_xcode_uuid cDraw) = _
  rw [show generate_xcode_uuid cDraw2 = generate_xcode_uuid cDraw from by decide]

/-- C9: the `([^)]+)` listing of the appended-member regexes must be
non-empty, so a Features group with empty children `()` (or a Sources phase
with empty files `()`) never matches: the corresponding append step is
skipped and that manifest region stays unchanged, while the other steps are
unaffected. -/
theorem c9_empty_listing_skips (u_g u_vb u_vmb fgu su sA sB sC sD inn inn2 : L) :
    (childrenSearch fgu sA = some inn → inn ≠ []) ∧
    (filesSearch su sB = some inn2 → inn2 ≠ []) ∧
    (featuresSearch sC = none → step_features u_g sC = sC) ∧
    (sourcesSearch sD = none → step_sources u_vb u_vmb sD = sD) :=
  ⟨fun h => searchInner_ne_nil fgu litFeat litChildren sA inn h,
   fun h => searchInner_ne_nil su litSrc litFiles sB inn2 h,
   fun h => step_features_none u_g sC h,
   fun h => step_sources_none u_vb u_vmb sD h⟩

/-- Witness for C9: the sample empty-listing manifests are skipped, and a
found listing is indeed non-empty. -/
theorem c9_witness :
    cIn1 ≠ [] ∧ cIn2 ≠ [] ∧
    step_features cUg cS9a = cS9a ∧
    step_sources cUvb cUvmb cS9b = cS9b := by
  refine ⟨?_, ?_, ?_, ?_⟩
  · exact (c9_empty_listing_skips cUg cUvb cUvmb cFgu cSu cS0 cS0 cS9a cS9b cIn1 cIn2).1
      (by decide)
  · exact (c9_empty_listing_skips cUg cUvb cUvmb cFgu cSu cS0 cS0 cS9a cS9b cIn1 cIn2).2.1
      (by decide)
  · exact (c9_empty_listing_skips cUg cUvb cUvmb cFgu cSu cS0 cS0 cS9a cS9b cIn1 cIn2).2.2.1
      (by decide)
  · exact (c9_empty_listing_skips cUg cUvb cUvmb cFgu cSu cS0 cS0 cS9a cS9b cIn1 cIn2).2.2.2
      (by decide)

/-- C3: `add_files_to_pbxproj` never fails on a missing anchor.  The content
transformation is exactly the five independently guarded steps in sequence;
a step whose search misses leaves the text unchanged, and a step whose
search hits performs its insert or replace -- independently of the other
steps. -/
theorem c3_steps_independent (u_vr u_vmr u_vb u_vmb u_g s : L) :
    (patchContent u_vr u_vmr u_vb u_vmb u_g s =
      step_sources u_vb u_vmb (step_group u_g u_vr u_vmr (step_features u_g
        (step_fileref u_vr u_vmr (step_build u_vb u_vr u_vmb u_vmr s))))) ∧
    (substrPos bfA s = none → step_build u_vb u_vr u_vmb u_vmr s = s) ∧
    (substrPos frA s = none → step_fileref u_vr u_vmr s = s) ∧
    (featuresSearch s = none → step_features u_g s = s) ∧
    (substrPos grpA s = none → step_group u_g u_vr u_vmr s = s) ∧
    (sourcesSearch s = none → step_sources u_vb u_vmb s = s) ∧
    (∀ p, substrPos bfA s = some p → step_build u_vb u_vr u_vmb u_vmr s =
      s.take (p + bfA.length) ++ buildEntries u_vb u_vr u_vmb u_vmr ++ s.drop (p + bfA.length)) ∧
    (∀ p, substrPos frA s = some p → step_fileref u_vr u_vmr s =
      s.take (p + frA.length) ++ fileEntries u_vr u_vmr ++ s.drop (p + frA.length)) ∧
    (∀ fgu inner, featuresSearch s = some fgu → childrenSearch fgu s = some inner →
      step_features u_g s = replaceAll inner (rstrip inner ++ childTail u_g) s) ∧
    (∀ p, substrPos grpA s = some p → step_group u_g u_vr u_vmr s =
      s.take (p + grpA.length) ++ groupEntry u_g u_vr u_vmr ++ s.drop (p + grpA.length)) ∧
    (∀ su inner, sourcesSearch s = some su → filesSearch su s = some inner →
      step_sources u_vb u_vmb s = replaceAll inner (rstrip inner ++ filesTail u_vb u_vmb) s) := by
  refine ⟨rfl, ?_, ?_, ?_, ?_, ?_, ?_, ?_, ?_, ?_, ?_⟩
  · intro h
    unfold step_build
    exact stepInsert_skip _ _ _ h
  · intro h
    unfold step_fileref
    exact stepInsert_skip _ _ _ h
  · exact step_features_none u_g s
  · intro h
    unfold step_group
    exact stepInsert_skip _ _ _ h
  · exact step_sources_none u_vb u_vmb s
  · intro p hp
    unfold step_build
    exact stepInsert_hit _ _ _ p hp
  · intro p hp
    unfold step_fileref
    exact stepInsert_hit _ _ _ p hp
  · intro fgu inner hf hc
    exact step_features_replace u_g s fgu inner hf hc
  · intro p hp
    unfold step_group
    exact stepInsert_hit _ _ _ p hp
  · intro su inner hs hc
    exact step_sources_replace u_vb u_vmb s su inner hs hc

/-- Witness for C3: skips on an anchor-free manifest, hits on the samples. -/
theorem c3_witness :
    step_build cUvb cUvr cUvmb cUvmr cNoAnchor = cNoAnchor ∧
    step_fileref cUvr cUvmr cNoAnchor = cNoAnchor ∧
    step_features cUg cNoAnchor = cNoAnchor ∧
    step_group cUg cUvr cUvmr cNoAnchor = cNoAnchor ∧
    step_sources cUvb cUvmb cNoAnchor = cNoAnchor ∧
    step_build cUvb cUvr cUvmb cUvmr cS0 =
      cS0.take (8 + bfA.length) ++ buildEntries cUvb cUvr cUvmb cUvmr ++
        cS0.drop (8 + bfA.length) ∧
    step_features cUg cS10 = replaceAll cIn1 (rstrip cIn1 ++ childTail cUg) cS10 ∧
    step_sources cUvb cUvmb cS10b = replaceAll cIn2 (rstrip cIn2 ++ filesTail cUvb cUvmb) cS10b := by
  refine ⟨?_, ?_, ?_, ?_, ?_, ?_, ?_, ?_⟩
  · exact (c3_steps_independent cUvr cUvmr cUvb cUvmb cUg cNoAnchor).2.1 (by decide)
  · exact (c3_steps_independent cUvr cUvmr cUvb cUvmb cUg cNoAnchor).2.2.1 (by decide)
  · exact (c3_steps_independent cUvr cUvmr cUvb cUvmb cUg cNoAnchor).2.2.2.1 (by decide)
  · exact (c3_steps_independent cUvr cUvmr cUvb cUvmb cUg cNoAnchor).2.2.2.2.1 (by decide)
  · exact (c3_steps_independent cUvr cUvmr cUvb cUvmb cUg cNoAnchor).2.2.2.2.2.1 (by decide)
  · exact (c3_steps_independent cUvr cUvmr cUvb cUvmb cUg cS0).2.2.2.2.2.2.1 8 (by decide)
  · exact (c3_steps_independent cUvr cUvmr cUvb cUvmb cUg cS10).2.2.2.2.2.2.2.2.1
      cFgu cIn1 (by decide) (by decide)
  · exact (c3_steps_independent cUvr cUvmr cUvb cUvmb cUg cS10b).2.2.2.2.2.2.2.2.2.2
      cSu cIn2 (by decide) (by decide)

/-- C10: the two append steps are whole-manifest `str.replace` calls: the
captured listing text is rewritten at every occurrence in the manifest, so
when the exact inner text occurs twice, both occurrences -- including the one
outside the targeted Features group or Sources phase -- are rewritten. -/
theorem c10_replace_rewrites_every_occurrence
    (u_g u_vb u_vmb s s2 fgu su inn inn2 X E D X2 E2 D2 : L) :
    (featuresSearch s = some fgu → childrenSearch fgu s = some inn →
      step_features u_g s = replaceAll inn (rstrip inn ++ childTail u_g) s) ∧
    (featuresSearch s = some fgu → childrenSearch fgu s = some inn →
      s = X ++ inn ++ (E ++ inn ++ D) →
      (∀ j, j < X.length → inn.isPrefixOf (s.drop j) = false) →
      (∀ j, j < E.length → inn.isPrefixOf ((E ++ inn ++ D).drop j) = false) →
      (∀ j, j < D.length → inn.isPrefixOf (D.drop j) = false) →
      step_features u_g s = X ++ (rstrip inn ++ childTail u_g) ++
        (E ++ (rstrip inn ++ childTail u_g) ++ D)) ∧
    (sourcesSearch s2 = some su → filesSearch su s2 = some inn2 →
      step_sources u_vb u_vmb s2 = replaceAll inn2 (rstrip inn2 ++ filesTail u_vb u_vmb) s2) ∧
    (sourcesSearch s2 = some su → filesSearch su s2 = some inn2 →
      s2 = X2 ++ inn2 ++ (E2 ++ inn2 ++ D2) →
      (∀ j, j < X2.length → inn2.isPrefixOf (s2.drop j) = false) →
      (∀ j, j < E2.length → inn2.isPrefixOf ((E2 ++ inn2 ++ D2).drop j) = false) →
      (∀ j, j < D2.length → inn2.isPrefixOf (D2.drop j) = false) →
      step_sources u_vb u_vmb s2 = X2 ++ (rstrip inn2 ++ filesTail u_vb u_vmb) ++
        (E2 ++ (rstrip inn2 ++ filesTail u_vb u_vmb) ++ D2)) := by
  refine ⟨fun hf hc => step_features_replace u_g s fgu inn hf hc, ?_,
    fun hs hc => step_sources_replace u_vb u_vmb s2 su inn2 hs hc, ?_⟩
  · intro hf hc hseq hX hE hD
    have hne : inn ≠ [] := searchInner_ne_nil fgu litFeat litChildren s inn hc
    rw [step_features_replace u_g s fgu inn hf hc]
    subst hseq
    refine replaceAll_splice2 inn _ X E D hne hX hE (fun j => ?_)
    by_cases hj : j < D.length
    · exact hD j hj
    · exact isPrefixOf_drop_of_ge hne (Nat.le_of_not_lt hj)
  · intro hs hc hseq hX hE hD
    have hne : inn2 ≠ [] := searchInner_ne_nil su litSrc litFiles s2 inn2 hc
    rw [step_sources_replace u_vb u_vmb s2 su inn2 hs hc]
    subst hseq
    refine replaceAll_splice2 inn2 _ X2 E2 D2 hne hX hE (fun j => ?_)
    by_cases hj : j < D2.length
    · exact hD j hj
    · exact isPrefixOf_drop_of_ge hne (Nat.le_of_not_lt hj)

/-- Witness for C10: on the duplicated-listing samples both occurrences of
the listing text are rewritten. -/
theorem c10_witness :
    step_features cUg cS10 = cFH ++ (rstrip cIn1 ++ childTail cUg) ++
      (cE10 ++ (rstrip cIn1 ++ childTail cUg) ++ cD10) ∧
    step_sources cUvb cUvmb cS10b = cSH ++ (rstrip cIn2 ++ filesTail cUvb cUvmb) ++
      (cE10b ++ (rstrip cIn2 ++ filesTail cUvb cUvmb) ++ cD10) := by
  constructor
  · exact (c10_replace_rewrites_every_occurrence cUg cUvb cUvmb cS10 cS10b cFgu cSu cIn1 cIn2
      cFH cE10 cD10 cSH cE10b cD10).2.1
      (by decide) (by decide) (by decide) (by decide) (by decide) (by decide)
  · exact (c10_replace_rewrites_every_occurrence cUg cUvb cUvmb cS10 cS10b cFgu cSu cIn1 cIn2
      cFH cE10 cD10 cSH cE10b cD10).2.2.2
      (by decide) (by decide) (by decide) (by decide) (by decide) (by decide)

/-- A string of uppercase-hex characters contains no bracket characters. -/
theorem hex_count_zero (u : L) (c : Char) (hu : u.all isHexUp = true)
    (hc : isHexUp c = false) : u.count c = 0 := by
  rw [List.count_eq_zero]
  intro hmem
  rw [List.all_eq_true] at hu
  have h := hu c hmem
  rw [hc] at h
  exact Bool.noConfusion h

/-- Character counts of `buildEntries` reduce to the literal text when the
spliced identifiers do not contain the character. -/
theorem buildEntries_count (a b d e : L) (c : Char) (h1 : a.count c = 0)
    (h2 : b.count c = 0) (h3 : d.count c = 0) (h4 : e.count c = 0) :
    (buildEntries a b d e).count c = (buildEntries [] [] [] []).count c := by
  unfold buildEntries
  simp only [List.count_append, List.count_nil, h1, h2, h3, h4]

/-- Character counts of `fileEntries`, as for `buildEntries`. -/
theorem fileEntries_count (a b : L) (c : Char) (h1 : a.count c = 0)
    (h2 : b.count c = 0) :
    (fileEntries a b).count c = (fileEntries [] []).count c := by
  unfold fileEntries
  simp only [List.count_append, List.count_nil, h1, h2]

/-- Character counts of `groupEntry`, as for `buildEntries`. -/
theorem groupEntry_count (a b d : L) (c : Char) (h1 : a.count c = 0)
    (h2 : b.count c = 0) (h3 : d.count c = 0) :
    (groupEntry a b d).count c = (groupEntry [] [] []).count c := by
  unfold groupEntry
  simp only [List.count_append, List.count_nil, h1, h2, h3]

/-- Character counts of `childTail`, as for `buildEntries`. -/
theorem childTail_count (a : L) (c : Char) (h1 : a.count c = 0) :
    (childTail a).count c = (childTail []).count c := by
  unfold childTail
  simp only [List.count_append, List.count_nil, h1]

/-- Character counts of `filesTail`, as for `buildEntries`. -/
theorem filesTail_count (a b : L) (c : Char) (h1 : a.count c = 0)
    (h2 : b.count c = 0) :
    (filesTail a b).count c = (filesTail [] []).count c := by
  unfold filesTail
  simp only [List.count_append, List.count_nil, h1, h2]

/-- A guarded insertion of a bracket-balanced block preserves balance. -/
theorem pbal_stepInsert (anchor block s : L)
    (hb1 : block.count '(' = block.count ')')
    (hb2 : block.count '\x7b' = block.count '\x7d')
    (hs : pbal s) : pbal (stepInsert anchor block s) := by
  obtain ⟨hs1, hs2⟩ := hs
  rcases stepInsert_eq_or anchor block s with h | ⟨n, h⟩
  · rw [h]; exact ⟨hs1, hs2⟩
  · rw [h]
    have t1 := count_take_drop '(' n s
    have t2 := count_take_drop ')' n s
    have t3 := count_take_drop '\x7b' n s
    have t4 := count_take_drop '\x7d' n s
    refine ⟨?_, ?_⟩
    · simp only [List.count_append]; omega
    · simp only [List.count_append]; omega

set_option maxRecDepth 100000 in
/-- The Features append step preserves bracket balance when the group
identifier is hexadecimal. -/
theorem pbal_step_features (u_g s : L) (hg : u_g.all isHexUp = true)
    (hs : pbal s) : pbal (step_features u_g s) := by
  obtain ⟨hs1, hs2⟩ := hs
  cases hf : featuresSearch s with
  | none => rw [step_features_none u_g s hf]; exact ⟨hs1, hs2⟩
  | some fgu =>
    cases hc : childrenSearch fgu s with
    | none => rw [step_features_none2 u_g s fgu hf hc]; exact ⟨hs1, hs2⟩
    | some inner =>
      rw [step_features_replace u_g s fgu inner hf hc]
      have key : ∀ c : Char, isPyWS c = false → (childTail u_g).count c = 0 →
          (replaceAll inner (rstrip inner ++ childTail u_g) s).count c = s.count c := by
        intro c hw h0
        refine count_replaceAll _ _ _ c ?_
        rw [List.count_append, count_rstrip inner c hw, h0, Nat.add_zero]
      have hct : ∀ c : Char, isHexUp c = false → (childTail []).count c = 0 →
          (childTail u_g).count c = 0 := by
        intro c hx h0
        rw [childTail_count u_g c (hex_count_zero u_g c hg hx)]
        exact h0
      refine ⟨?_, ?_⟩
      · rw [key '(' (by decide) (hct '(' (by decide) (by decide)),
            key ')' (by decide) (hct ')' (by decide) (by decide))]
        exact hs1
      · rw [key '\x7b' (by decide) (hct '\x7b' (by decide) (by decide)),
            key '\x7d' (by decide) (hct '\x7d' (by decide) (by decide))]
        exact hs2

set_option maxRecDepth 100000 in
/-- The Sources append step preserves bracket balance when the build-file
identifiers are hexadecimal. -/
theorem pbal_step_sources (u_vb u_vmb s : L) (h3 : u_vb.all isHexUp = true)
    (h4 : u_vmb.all isHexUp = true) (hs : pbal s) :
    pbal (step_sources u_vb u_vmb s) := by
  obtain ⟨hs1, hs2⟩ := hs
  cases hf : sourcesSearch s with
  | none => rw [step_sources_none u_vb u_vmb s hf]; exact ⟨hs1, hs2⟩
  | some su =>
    cases hc : filesSearch su s with
    | none => rw [step_sources_none2 u_vb u_vmb s su hf hc]; exact ⟨hs1, hs2⟩
    | some inner =>
      rw [step_sources_replace u_vb u_vmb s su inner hf hc]
      have key : ∀ c : Char, isPyWS c = false → (filesTail u_vb u_vmb).count c = 0 →
          (replaceAll inner (rstrip inner ++ filesTail u_vb u_vmb) s).count c = s.count c := by
        intro c hw h0
        refine count_replaceAll _ _ _ c ?_
        rw [List.count_append, count_rstrip inner c hw, h0, Nat.add_zero]
      have hct : ∀ c : Char, isHexUp c = false → (filesTail [] []).count c = 0 →
          (filesTail u_vb u_vmb).count c = 0 := by
        intro c hx h0
        rw [filesTail_count u_vb u_vmb c (hex_count_zero u_vb c h3 hx)
          (hex_count_zero u_vmb c h4 hx)]
        exact h0
      refine ⟨?_, ?_⟩
      · rw [key '(' (by decide) (hct '(' (by decide) (by decide)),
            key ')' (by decide) (hct ')' (by decide) (by decide))]
        exact hs1
      · rw [key '\x7b' (by decide) (hct '\x7b' (by decide) (by decide)),
            key '\x7d' (by decide) (hct '\x7d' (by decide) (by decide))]
        exact hs2

set_option maxRecDepth 100000 in
/-- C4: when the five generated identifiers are uppercase-hexadecimal, every
run of the content transformation preserves the manifest's parenthesis and
brace balance, for every input manifest. -/
theorem c4_balance_preserved (u_vr u_vmr u_vb u_vmb u_g s : L)
    (h1 : u_vr.all isHexUp = true) (h2 : u_vmr.all isHexUp = true)
    (h3 : u_vb.all isHexUp = true) (h4 : u_vmb.all isHexUp = true)
    (h5 : u_g.all isHexUp = true) (hs : pbal s) :
    pbal (patchContent u_vr u_vmr u_vb u_vmb u_g s) := by
  have z : ∀ (u : L), u.all isHexUp = true → ∀ c : Char, isHexUp c = false →
      u.count c = 0 := fun u hu c hc => hex_count_zero u c hu hc
  have bb1 : (buildEntries u_vb u_vr u_vmb u_vmr).count '(' =
      (buildEntries u_vb u_vr u_vmb u_vmr).count ')' := by
    rw [buildEntries_count _ _ _ _ '(' (z _ h3 _ (by decide)) (z _ h1 _ (by decide))
          (z _ h4 _ (by decide)) (z _ h2 _ (by decide)),
        buildEntries_count _ _ _ _ ')' (z _ h3 _ (by decide)) (z _ h1 _ (by decide))
          (z _ h4 _ (by decide)) (z _ h2 _ (by decide))]
    decide
  have bb2 : (buildEntries u_vb u_vr u_vmb u_vmr).count '\x7b' =
      (buildEntries u_vb u_vr u_vmb u_vmr).count '\x7d' := by
    rw [buildEntries_count _ _ _ _ '\x7b' (z _ h3 _ (by decide)) (z _ h1 _ (by decide))
          (z _ h4 _ (by decide)) (z _ h2 _ (by decide)),
        buildEntries_count _ _ _ _ '\x7d' (z _ h3 _ (by decide)) (z _ h1 _ (by decide))
          (z _ h4 _ (by decide)) (z _ h2 _ (by decide))]
    decide
  have fb1 : (fileEntries u_vr u_vmr).count '(' = (fileEntries u_vr u_vmr).count ')' := by
    rw [fileEntries_count _ _ '(' (z _ h1 _ (by decide)) (z _ h2 _ (by decide)),
        fileEntries_count _ _ ')' (z _ h1 _ (by decide)) (z _ h2 _ (by decide))]
    decide
  have fb2 : (fileEntries u_vr u_vmr).count '\x7b' =
      (fileEntries u_vr u_vmr).count '\x7d' := by
    rw [fileEntries_count _ _ '\x7b' (z _ h1 _ (by decide)) (z _ h2 _ (by decide)),
        fileEntries_count _ _ '\x7d' (z _ h1 _ (by decide)) (z _ h2 _ (by decide))]
    decide
  have gb1 : (groupEntry u_g u_vr u_vmr).count '(' =
      (groupEntry u_g u_vr u_vmr).count ')' := by
    rw [groupEntry_count _ _ _ '(' (z _ h5 _ (by decide)) (z _ h1 _ (by decide))
          (z _ h2 _ (by decide)),
        groupEntry_count _ _ _ ')' (z _ h5 _ (by decide)) (z _ h1 _ (by decide))
          (z _ h2 _ (by decide))]
    decide
  have gb2 : (groupEntry u_g u_vr u_vmr).count '\x7b' =
      (groupEntry u_g u_vr u_vmr).count '\x7d' := by
    rw [groupEntry_count _ _ _ '\x7b' (z _ h5 _ (by decide)) (z _ h1 _ (by decide))
          (z _ h2 _ (by decide)),
        groupEntry_count _ _ _ '\x7d' (z _ h5 _ (by decide)) (z _ h1 _ (by decide))
          (z _ h2 _ (by decide))]
    decide
  unfold patchContent step_build step_fileref step_group
  exact pbal_step_sources u_vb u_vmb _ h3 h4
    (pbal_stepInsert grpA _ _ gb1 gb2
      (pbal_step_features u_g _ h5
        (pbal_stepInsert frA _ _ fb1 fb2
          (pbal_stepInsert bfA _ _ bb1 bb2 hs))))

set_option maxRecDepth 100000 in
/-- Witness for C4: the canonical sample manifest is balanced, and its
patched form is balanced too. -/
theorem c4_witness :
    cUvr.all isHexUp = true ∧ cUvmr.all isHexUp = true ∧ cUvb.all isHexUp = true ∧
    cUvmb.all isHexUp = true ∧ cUg.all isHexUp = true ∧ pbal cS0 ∧
    pbal (patchContent cUvr cUvmr cUvb cUvmb cUg cS0) :=
  ⟨by decide, by decide, by decide, by decide, by decide, ⟨by decide, by decide⟩,
    c4_balance_preserved cUvr cUvmr cUvb cUvmb cUg cS0 (by decide) (by decide)
      (by decide) (by decide) (by decide) ⟨by decide, by decide⟩⟩

/-- C6: for a manifest in canonical shape whose Features group anchor is
absent but whose build-file, file-reference and group section-open anchors
are present (together with a Sources phase), one run still inserts the two
build-file entries and the two file-reference entries, and the grouping
section is changed only by the insertion of the new standalone group
record -- the Features append step is a no-op. -/
theorem c6_features_absent
    (u_vr u_vmr u_vb u_vmb u_g P1 P2 P3 P4 SH in2 P6 su : L)
    (h1 : ∀ j, j < (P1).length → (bfA).isPrefixOf ((P1 ++ bfA ++ P2 ++ frA ++ P3 ++ grpA ++ P4 ++ SH ++ in2 ++ closeParen ++ P6).drop j) = false)
    (h2 : ∀ j, j < (P1 ++ bfA ++ buildEntries u_vb u_vr u_vmb u_vmr ++ P2).length → (frA).isPrefixOf ((P1 ++ bfA ++ buildEntries u_vb u_vr u_vmb u_vmr ++ P2 ++ frA ++ P3 ++ grpA ++ P4 ++ SH ++ in2 ++ closeParen ++ P6).drop j) = false)
    (hfe : featuresSearch (P1 ++ bfA ++ buildEntries u_vb u_vr u_vmb u_vmr ++ P2 ++ frA ++ fileEntries u_vr u_vmr ++ P3 ++ grpA ++ P4 ++ SH ++ in2 ++ closeParen ++ P6) = none)
    (h4 : ∀ j, j < (P1 ++ bfA ++ buildEntries u_vb u_vr u_vmb u_vmr ++ P2 ++ frA ++ fileEntries u_vr u_vmr ++ P3).length → (grpA).isPrefixOf ((P1 ++ bfA ++ buildEntries u_vb u_vr u_vmb u_vmr ++ P2 ++ frA ++ fileEntries u_vr u_vmr ++ P3 ++ grpA ++ P4 ++ SH ++ in2 ++ closeParen ++ P6).drop j) = false)
    (hso : sourcesSearch (P1 ++ bfA ++ buildEntries u_vb u_vr u_vmb u_vmr ++ P2 ++ frA ++ fileEntries u_vr u_vmr ++ P3 ++ grpA ++ groupEntry u_g u_vr u_vmr ++ P4 ++ SH ++ in2 ++ closeParen ++ P6) = some su)
    (hfi : filesSearch su (P1 ++ bfA ++ buildEntries u_vb u_vr u_vmb u_vmr ++ P2 ++ frA ++ fileEntries u_vr u_vmr ++ P3 ++ grpA ++ groupEntry u_g u_vr u_vmr ++ P4 ++ SH ++ in2 ++ closeParen ++ P6) = some in2)
    (h5 : ∀ j, j < (P1 ++ bfA ++ buildEntries u_vb u_vr u_vmb u_vmr ++ P2 ++ frA ++ fileEntries u_vr u_vmr ++ P3 ++ grpA ++ groupEntry u_g u_vr u_vmr ++ P4 ++ SH).length → (in2).isPrefixOf ((P1 ++ bfA ++ buildEntries u_vb u_vr u_vmb u_vmr ++ P2 ++ frA ++ fileEntries u_vr u_vmr ++ P3 ++ grpA ++ groupEntry u_g u_vr u_vmr ++ P4 ++ SH ++ in2 ++ closeParen ++ P6).drop j) = false)
    (h5D : ∀ j, j < (closeParen ++ P6).length → (in2).isPrefixOf ((closeParen ++ P6).drop j) = false)
    : patchContent u_vr u_vmr u_vb u_vmb u_g (P1 ++ bfA ++ P2 ++ frA ++ P3 ++ grpA ++ P4 ++ SH ++ in2 ++ closeParen ++ P6) = P1 ++ bfA ++ buildEntries u_vb u_vr u_vmb u_vmr ++ P2 ++ frA ++ fileEntries u_vr u_vmr ++ P3 ++ grpA ++ groupEntry u_g u_vr u_vmr ++ P4 ++ SH ++ (rstrip in2 ++ filesTail u_vb u_vmb) ++ closeParen ++ P6 := by
  unfold patchContent
  rw [show step_build u_vb u_vr u_vmb u_vmr (P1 ++ bfA ++ P2 ++ frA ++ P3 ++ grpA ++ P4 ++ SH ++ in2 ++ closeParen ++ P6) = P1 ++ bfA ++ buildEntries u_vb u_vr u_vmb u_vmr ++ P2 ++ frA ++ P3 ++ grpA ++ P4 ++ SH ++ in2 ++ closeParen ++ P6 from by
    unfold step_build
    exact stepInsert_splice' bfA (buildEntries u_vb u_vr u_vmb u_vmr) P1
      (P2 ++ frA ++ P3 ++ grpA ++ P4 ++ SH ++ in2 ++ closeParen ++ P6) _ _ (by decide) (by simp only [List.append_assoc]) h1
      (by simp only [List.append_assoc])]
  rw [show step_fileref u_vr u_vmr (P1 ++ bfA ++ buildEntries u_vb u_vr u_vmb u_vmr ++ P2 ++ frA ++ P3 ++ grpA ++ P4 ++ SH ++ in2 ++ closeParen ++ P6) = P1 ++ bfA ++ buildEntries u_vb u_vr u_vmb u_vmr ++ P2 ++ frA ++ fileEntries u_vr u_vmr ++ P3 ++ grpA ++ P4 ++ SH ++ in2 ++ closeParen ++ P6 from by
    unfold step_fileref
    exact stepInsert_splice' frA (fileEntries u_vr u_vmr) (P1 ++ bfA ++ buildEntries u_vb u_vr u_vmb u_vmr ++ P2)
      (P3 ++ grpA ++ P4 ++ SH ++ in2 ++ closeParen ++ P6) _ _ (by decide) (by simp only [List.append_assoc]) h2
      (by simp only [List.append_assoc])]
  rw [step_features_none u_g (P1 ++ bfA ++ buildEntries u_vb u_vr u_vmb u_vmr ++ P2 ++ frA ++ fileEntries u_vr u_vmr ++ P3 ++ grpA ++ P4 ++ SH ++ in2 ++ closeParen ++ P6) hfe]
  rw [show step_group u_g u_vr u_vmr (P1 ++ bfA ++ buildEntries u_vb u_vr u_vmb u_vmr ++ P2 ++ frA ++ fileEntries u_vr u_vmr ++ P3 ++ grpA ++ P4 ++ SH ++ in2 ++ closeParen ++ P6) = P1 ++ bfA ++ buildEntries u_vb u_vr u_vmb u_vmr ++ P2 ++ frA ++ fileEntries u_vr u_vmr ++ P3 ++ grpA ++ groupEntry u_g u_vr u_vmr ++ P4 ++ SH ++ in2 ++ closeParen ++ P6 from by
    unfold step_group
    exact stepInsert_splice' grpA (groupEntry u_g u_vr u_vmr) (P1 ++ bfA ++ buildEntries u_vb u_vr u_vmb u_vmr ++ P2 ++ frA ++ fileEntries u_vr u_vmr ++ P3)
      (P4 ++ SH ++ in2 ++ closeParen ++ P6) _ _ (by decide) (by simp only [List.append_assoc]) h4
      (by simp only [List.append_assoc])]
  exact step_sources_splice u_vb u_vmb _ su in2 (P1 ++ bfA ++ buildEntries u_vb u_vr u_vmb u_vmr ++ P2 ++ frA ++ fileEntries u_vr u_vmr ++ P3 ++ grpA ++ groupEntry u_g u_vr u_vmr ++ P4 ++ SH) (closeParen ++ P6) _ hso hfi
    (by simp only [List.append_assoc]) h5 h5D (by simp only [List.append_assoc])

set_option maxRecDepth 400000 in
set_option maxHeartbeats 12000000 in
/-- Leftmostness fact for the concrete witness manifests. -/
theorem wf23 : ∀ j, j < (cP1).length → (bfA).isPrefixOf ((cP1 ++ bfA ++ cP2 ++ frA ++ cP3 ++ grpA ++ cP4f ++ cSH ++ cIn2 ++ closeParen ++ cP6).drop j) = false :=
  noOccPre_spec bfA (by decide) (cP1) (cP1 ++ bfA ++ cP2 ++ frA ++ cP3 ++ grpA ++ cP4f ++ cSH ++ cIn2 ++ closeParen ++ cP6) (by decide)

set_option maxRecDepth 400000 in
set_option maxHeartbeats 12000000 in
/-- Leftmostness fact for the concrete witness manifests. -/
theorem wf24 : ∀ j, j < (cP1 ++ bfA ++ buildEntries cUvb cUvr cUvmb cUvmr ++ cP2).length → (frA).isPrefixOf ((cP1 ++ bfA ++ buildEntries cUvb cUvr cUvmb cUvmr ++ cP2 ++ frA ++ cP3 ++ grpA ++ cP4f ++ cSH ++ cIn2 ++ closeParen ++ cP6).drop j) = false :=
  noOccPre_spec frA (by decide) (cP1 ++ bfA ++ buildEntries cUvb cUvr cUvmb cUvmr ++ cP2) (cP1 ++ bfA ++ buildEntries cUvb cUvr cUvmb cUvmr ++ cP2 ++ frA ++ cP3 ++ grpA ++ cP4f ++ cSH ++ cIn2 ++ closeParen ++ cP6) (by decide)

set_option maxRecDepth 400000 in
set_option maxHeartbeats 12000000 in
/-- Search fact for the concrete witness manifests. -/
theorem wf25 : featuresSearch (cP1 ++ bfA ++ buildEntries cUvb cUvr cUvmb cUvmr ++ cP2 ++ frA ++ fileEntries cUvr cUvmr ++ cP3 ++ grpA ++ cP4f ++ cSH ++ cIn2 ++ closeParen ++ cP6) = none := by decide

set_option maxRecDepth 400000 in
set_option maxHeartbeats 12000000 in
/-- Leftmostness fact for the concrete witness manifests. -/
theorem wf26 : ∀ j, j < (cP1 ++ bfA ++ buildEntries cUvb cUvr cUvmb cUvmr ++ cP2 ++ frA ++ fileEntries cUvr cUvmr ++ cP3).length → (grpA).isPrefixOf ((cP1 ++ bfA ++ buildEntries cUvb cUvr cUvmb cUvmr ++ cP2 ++ frA ++ fileEntries cUvr cUvmr ++ cP3 ++ grpA ++ cP4f ++ cSH ++ cIn2 ++ closeParen ++ cP6).drop j) = false :=
  noOccPre_spec grpA (by decide) (cP1 ++ bfA ++ buildEntries cUvb cUvr cUvmb cUvmr ++ cP2 ++ frA ++ fileEntries cUvr cUvmr ++ cP3) (cP1 ++ bfA ++ buildEntries cUvb cUvr cUvmb cUvmr ++ cP2 ++ frA ++ fileEntries cUvr cUvmr ++ cP3 ++ grpA ++ cP4f ++ cSH ++ cIn2 ++ closeParen ++ cP6) (by decide)

set_option maxRecDepth 400000 in
set_option maxHeartbeats 12000000 in
/-- Search fact for the concrete witness manifests. -/
theorem wf27 : sourcesSearch (cP1 ++ bfA ++ buildEntries cUvb cUvr cUvmb cUvmr ++ cP2 ++ frA ++ fileEntries cUvr cUvmr ++ cP3 ++ grpA ++ groupEntry cUg cUvr cUvmr ++ cP4f ++ cSH ++ cIn2 ++ closeParen ++ cP6) = some cSu := by decide

set_option maxRecDepth 400000 in
set_option maxHeartbeats 12000000 in
/-- Search fact for the concrete witness manifests. -/
theorem wf28 : filesSearch cSu (cP1 ++ bfA ++ buildEntries cUvb cUvr cUvmb cUvmr ++ cP2 ++ frA ++ fileEntries cUvr cUvmr ++ cP3 ++ grpA ++ groupEntry cUg cUvr cUvmr ++ cP4f ++ cSH ++ cIn2 ++ closeParen ++ cP6) = some cIn2 := by decide

set_option maxRecDepth 400000 in
set_option maxHeartbeats 12000000 in
/-- Leftmostness fact for the concrete witness manifests. -/
theorem wf29 : ∀ j, j < (cP1 ++ bfA ++ buildEntries cUvb cUvr cUvmb cUvmr ++ cP2 ++ frA ++ fileEntries cUvr cUvmr ++ cP3 ++ grpA ++ groupEntry cUg cUvr cUvmr ++ cP4f ++ cSH).length → ((cIn2)).isPrefixOf ((cP1 ++ bfA ++ buildEntries cUvb cUvr cUvmb cUvmr ++ cP2 ++ frA ++ fileEntries cUvr cUvmr ++ cP3 ++ grpA ++ groupEntry cUg cUvr cUvmr ++ cP4f ++ cSH ++ cIn2 ++ closeParen ++ cP6).drop j) = false :=
  noOccPre_spec (cIn2) (by decide) (cP1 ++ bfA ++ buildEntries cUvb cUvr cUvmb cUvmr ++ cP2 ++ frA ++ fileEntries cUvr cUvmr ++ cP3 ++ grpA ++ groupEntry cUg cUvr cUvmr ++ cP4f ++ cSH) (cP1 ++ bfA ++ buildEntries cUvb cUvr cUvmb cUvmr ++ cP2 ++ frA ++ fileEntries cUvr cUvmr ++ cP3 ++ grpA ++ groupEntry cUg cUvr cUvmr ++ cP4f ++ cSH ++ cIn2 ++ closeParen ++ cP6) (by decide)

set_option maxRecDepth 400000 in
set_option maxHeartbeats 12000000 in
/-- Witness for C6 at the concrete Features-free sample manifest. -/
theorem c6_witness :
    patchContent cUvr cUvmr cUvb cUvmb cUg (cP1 ++ bfA ++ cP2 ++ frA ++ cP3 ++ grpA ++ cP4f ++ cSH ++ cIn2 ++ closeParen ++ cP6) = cP1 ++ bfA ++ buildEntries cUvb cUvr cUvmb cUvmr ++ cP2 ++ frA ++ fileEntries cUvr cUvmr ++ cP3 ++ grpA ++ groupEntry cUg cUvr cUvmr ++ cP4f ++ cSH ++ (rstrip cIn2 ++ filesTail cUvb cUvmb) ++ closeParen ++ cP6 :=
  c6_features_absent cUvr cUvmr cUvb cUvmb cUg cP1 cP2 cP3 cP4f cSH cIn2 cP6 cSu
    wf23
    wf24
    wf25
    wf26
    wf27
    wf28
    wf29
    wf11
